import Mathlib

/-!
# Cluster access proxy: credential resolution, API routing, log-config reverse proxy

A shallow embedding of `pkg/platform/proxy/client.go` and of
`pkg/platform/registry/cluster/storage/cls_logconfig.go`.

Go values become Lean values, Go `error` results become the `Error` type, and a
nil-pointer dereference becomes `Result.panic` (`none` in the handler).  The
collaborators that `client.go` calls but does not define (the cluster directory,
`types.GetCluster`, the remote cluster's ConfigMap client,
`pkiutil.GenerateClientCertAndKey`, the two `RESTConfig` builders,
`kubernetes.NewForConfig`) are fields of a record `Deps`, and `strings.ToLower`
is an argument of `RESTClientFor`, so the theorems hold for all of their
behaviours.  State that the code can change (the remote store, the entropy
consumed by key generation, the credential behind the cluster wrapper's pointer)
is passed explicitly, and every collaborator call is appended to a trace.  The
handler of `cls_logconfig.go` works on a heap of URL cells and header maps, so
that copying and sharing are told apart.

Definitions come first, the theorems follow.
-/

namespace proxy

/-! ## Go values -/

/-- Byte slices (`[]byte`). -/
abbrev Bytes := List UInt8

/-- Conversion `[]byte(s)`: the UTF-8 bytes of a Go string. -/
def bytesOf (s : String) : Bytes := s.data.flatMap String.utf8EncodeChar

/-- Index expression `m[k]` on a `map[string]string`: the zero value when absent. -/
def strAt (m : List (String × String)) (k : String) : String := (m.lookup k).getD ""

/-- Index expression `m[k]` on a `map[string][]byte`: the nil slice when absent. -/
def bytesAt (m : List (String × Bytes)) (k : String) : Bytes := (m.lookup k).getD []

/-- Type `schema.GroupResource`. -/
structure GroupResource where
  Group : String
  Resource : String
deriving DecidableEq, Repr

/-- Method `GroupResource.String`. -/
def GroupResource.String (gr : GroupResource) : String :=
  if gr.Group = "" then gr.Resource else gr.Resource ++ "." ++ gr.Group

/-- Go `error` values.  `BadRequest` and `NotFound` are the status errors built by
`errors.NewBadRequest` and `errors.NewNotFound`; `Errorf` is the plain error of
`fmt.Errorf`, which carries no API status; `Status` is any other status error a
collaborator hands back (reason, HTTP code, message). -/
inductive Error where
  | BadRequest (reason : String)
  | NotFound (qualifiedResource : GroupResource) (name : String)
  | Errorf (message : String)
  | Status (reason : String) (code : Nat) (message : String)
deriving DecidableEq, Repr

/-- Verb `%q` on a string, for strings whose only characters in need of an escape
are the double quote and the backslash (Kubernetes object names are of that kind). -/
def Quote (s : String) : String :=
  "\"" ++ String.join (s.data.map fun c =>
    if c = '"' then "\\\"" else if c = '\\' then "\\\\" else String.singleton c) ++ "\""

/-- Method `Error()`: a status error prints its message, `NewNotFound` having set it
with the format `%s %q not found`. -/
def Error.text : Error → String
  | .BadRequest reason => reason
  | .NotFound gr name => gr.String ++ " " ++ Quote name ++ " not found"
  | .Errorf message => message
  | .Status _ _ message => message

/-- HTTP status the API boundary answers with: the code of a status error, and 500
for an error that carries no status (spec §6: BadRequest 400, NotFound 404,
Locked/Conflict 409, Internal/unclassified 500). -/
def Error.httpCode : Error → Nat
  | .BadRequest _ => 400
  | .NotFound _ _ => 404
  | .Errorf _ => 500
  | .Status _ code _ => code

/-- Whether the error carries an API status (is an `APIStatus`). -/
def Error.isStatus : Error → Bool
  | .Errorf _ => false
  | _ => true

/-- Outcome of a Go call that returns `(value, error)` and may also panic. -/
inductive Result (α : Type) where
  | ok (a : α)
  | error (e : Error)
  | panic
deriving DecidableEq, Repr

/-! ## Platform objects -/

structure ObjectMeta where
  Name : String := ""
  ClusterName : String := ""
  Labels : List (String × String) := []
deriving DecidableEq, Repr

structure ClusterSpec where
  TenantID : String := ""
deriving DecidableEq, Repr

structure ClusterStatus where
  Locked : Option Bool := none
deriving DecidableEq, Repr

/-- Type `platform.Cluster`, the fields the proxy reads. -/
structure Cluster where
  ObjectMeta : ObjectMeta := {}
  Spec : ClusterSpec := {}
  Status : ClusterStatus := {}
deriving DecidableEq, Repr

/-- Type `platform.ClusterCredential`, the fields the proxy reads and writes. -/
structure ClusterCredential where
  CACert : Bytes := []
  CAKey : Bytes := []
  Token : String := ""
deriving DecidableEq, Repr

/-- Type `types.Cluster`: the cluster together with its credential.  The credential
is held by pointer in Go, so an assignment to one of its fields is visible to
every later use of the wrapper; the model returns the updated wrapper. -/
structure ClusterWrapper where
  Cluster : Cluster := {}
  ClusterCredential : ClusterCredential := {}
deriving DecidableEq, Repr

/-- Type `v1.ConfigMap`. -/
structure ConfigMap where
  ObjectMeta : ObjectMeta := {}
  Data : List (String × String) := []
  BinaryData : List (String × Bytes) := []
deriving DecidableEq, Repr

structure TLSClientConfig where
  CAData : Bytes := []
  CertData : Bytes := []
  KeyData : Bytes := []
deriving DecidableEq, Repr

/-- Type `rest.Config`, the fields a credential can end up in. -/
structure Config where
  Host : String := ""
  BearerToken : String := ""
  TLSClientConfig : TLSClientConfig := {}
deriving DecidableEq, Repr

/-- Type `kubernetes.Clientset`: determined by the configuration it was built for. -/
structure Clientset where
  config : Config
deriving DecidableEq, Repr

/-- Request context: what the filters and the authenticator stored for this
request (`filter.ClusterFrom`, `authentication.UsernameAndTenantID`,
`authentication.Groups`, `filter.UinFrom`, `filter.NamespaceFrom`). -/
structure Context where
  clusterName : String := ""
  username : String := ""
  tenantID : String := ""
  groups : List String := []
  uin : String := ""
  ns : String := ""
deriving DecidableEq, Repr

/-! ## Collaborators, world state and trace -/

/-- One call made to a collaborator. -/
inductive Call where
  | ClustersGet (name : String)
  | GetCluster (cluster : Cluster)
  | ConfigMapsGet (ns name : String)
  | ConfigMapsCreate (ns : String) (cm : ConfigMap)
  | GenerateClientCertAndKey (cn : String) (org : List String) (caCert caKey : Bytes)
  | RESTConfigForClientX509 (cert key : Bytes)
  | RESTConfig
  | NewForConfig (config : Config)
deriving DecidableEq, Repr

/-- The collaborators of the proxy.  `σ` is the state of the remote control planes.
`Clientset` tells whether `clusterWrapper.Clientset()` yields a client; the two
ConfigMap operations are those of the client of the wrapper given first.
A `Get` returns Go's pair (object, error); a typed client returns an object even
when it also returns an error.  Key generation draws on entropy, here the count
of earlier generations. -/
structure Deps (σ : Type) where
  ClustersGet : String → Except Error Cluster
  GetCluster : Cluster → Except Error ClusterWrapper
  Clientset : ClusterWrapper → Bool
  ConfigMapsGet : ClusterWrapper → σ → String → String → ConfigMap × Option Error
  ConfigMapsCreate : ClusterWrapper → σ → String → ConfigMap → σ × Option Error
  GenerateClientCertAndKey : Nat → String → List String → Bytes → Bytes → Except Error (Bytes × Bytes)
  RESTConfigForClientX509 : ClusterWrapper → Config → Bytes → Bytes → Except Error Config
  RESTConfig : ClusterWrapper → Config → Except Error Config
  NewForConfig : Config → Option Error

/-- What a call can change. -/
structure World (σ : Type) where
  store : σ
  rand : Nat := 0
  trace : List Call := []

/-- Record a collaborator call. -/
def World.log {σ : Type} (w : World σ) (c : Call) : World σ :=
  { w with trace := w.trace ++ [c] }

/-! ## `client.go` -/

/-- Verb `%v` on a `[]string`: the elements separated by one space, in brackets. -/
def fmtStrings (groups : List String) : String := "[" ++ " ".intercalate groups ++ "]"

/-- Function `makeClientKey`: `fmt.Sprintf("%s###%v", username, groups)`. -/
def makeClientKey (username : String) (groups : List String) : String :=
  username ++ "###" ++ fmtStrings groups

/-- Test `strings.Contains(s, substr)`. -/
def Contains (s substr : String) : Bool := decide (substr.data <:+: s.data)

/-- Function `IsNotFoundError`. -/
def IsNotFoundError (err : Error) : Bool :=
  if Contains err.text "not found" then true else false

/-- Constant `platform.GroupName` behind `platform.Resource`. -/
def platform.GroupName : String := "platform.tkestack.io"

/-- Function `platform.Resource`. -/
def platform.Resource (resource : String) : GroupResource := ⟨platform.GroupName, resource⟩

/-- Function `kubernetes.NewForConfig`, called on the finished configuration. -/
def kubernetes.NewForConfig {σ : Type} (d : Deps σ) (config : Config) (w : World σ) :
    World σ × Result Clientset :=
  let w := w.log (.NewForConfig config)
  match d.NewForConfig config with
  | some err => (w, .error err)
  | none => (w, .ok ⟨config⟩)

/-- Function `getOrCreateClientCert`.  It returns the world after the call, the
wrapper with the credential as the call left it, and Go's `(cert, key, err)`.
The locals `groups` and `ns` of the source reach only its log lines and are
left out, as are the log lines. -/
def getOrCreateClientCert {σ : Type} (d : Deps σ) (ctx : Context)
    (clusterWrapper : ClusterWrapper) (w : World σ) :
    World σ × ClusterWrapper × Result (Bytes × Bytes) :=
  let credential := clusterWrapper.ClusterCredential
  let uin := ctx.uin
  let clusterName := ctx.clusterName
  if clusterName = "" then
    (w, clusterWrapper, .error (.BadRequest "clusterName is required"))
  else if d.Clientset clusterWrapper = false then
    -- `client, _ := clusterWrapper.Clientset()` left `client` nil
    (w, clusterWrapper, .panic)
  else
    -- the client is the one of the wrapper as it is at this point
    let client := clusterWrapper
    let w := w.log (.ConfigMapsGet "kube-system" uin)
    match d.ConfigMapsGet client w.store "kube-system" uin with
    | (_, some err) =>
      if IsNotFoundError err then
        let w := w.log (.ConfigMapsGet "kube-system" "config")
        -- the error of this read is logged and then dropped
        let configmap := (d.ConfigMapsGet client w.store "kube-system" "config").1
        let credential := { credential with
          CACert := bytesOf (strAt configmap.Data "ca.crt"),
          CAKey := bytesOf (strAt configmap.Data "ca.key") }
        let clusterWrapper := { clusterWrapper with ClusterCredential := credential }
        let w := w.log (.GenerateClientCertAndKey uin [] credential.CACert credential.CAKey)
        let generated := d.GenerateClientCertAndKey w.rand uin [] credential.CACert credential.CAKey
        let w := { w with rand := w.rand + 1 }
        match generated with
        | .error err => (w, clusterWrapper, .error err)
        | .ok (clientCertData, clientKeyData) =>
          let confMap : ConfigMap := {
            ObjectMeta := {
              Name := uin,
              ClusterName := clusterName,
              Labels := [("rbac.cert", "cert")] },
            Data := [("CommonName", uin), ("UIN", uin), ("clusterName", clusterName)],
            BinaryData := [("clientCertData", clientCertData), ("clientKeyData", clientKeyData)] }
          let w := w.log (.ConfigMapsCreate "kube-system" confMap)
          match d.ConfigMapsCreate client w.store "kube-system" confMap with
          | (store, some err) => ({ w with store := store }, clusterWrapper, .error err)
          | (store, none) =>
            ({ w with store := store }, clusterWrapper, .ok (clientCertData, clientKeyData))
      else
        (w, clusterWrapper, .error err)
    | (cache, none) =>
      (w, clusterWrapper,
        .ok (bytesAt cache.BinaryData "clientCertData", bytesAt cache.BinaryData "clientKeyData"))

/-- Function `ClientSet`. -/
def ClientSet {σ : Type} (d : Deps σ) (ctx : Context) (w : World σ) :
    World σ × Result Clientset :=
  let clusterName := ctx.clusterName
  if clusterName = "" then
    (w, .error (.BadRequest "clusterName is required"))
  else
    let w := w.log (.ClustersGet clusterName)
    match d.ClustersGet clusterName with
    | .error err => (w, .error err)
    | .ok cluster =>
      if cluster.Status.Locked ≠ none ∧ cluster.Status.Locked = some true then
        (w, .error (.Errorf ("cluster " ++ cluster.ObjectMeta.Name ++ " has been locked")))
      else
        let tenantID := ctx.tenantID
        if tenantID.utf8ByteSize > 0 ∧ cluster.Spec.TenantID ≠ tenantID then
          (w, .error (.NotFound (platform.Resource "clusters") cluster.ObjectMeta.Name))
        else
          let w := w.log (.GetCluster cluster)
          match d.GetCluster cluster with
          | .error err => (w, .error err)
          | .ok clusterWrapper =>
            let config : Config := {}
            let uin := ctx.uin
            if uin ≠ "" then
              match getOrCreateClientCert d ctx clusterWrapper w with
              | (w, _, .panic) => (w, .panic)
              | (w, _, .error err) => (w, .error err)
              | (w, clusterWrapper, .ok (clientCertData, clientKeyData)) =>
                let w := w.log (.RESTConfigForClientX509 clientCertData clientKeyData)
                match d.RESTConfigForClientX509 clusterWrapper config clientCertData clientKeyData with
                | .error err => (w, .error err)
                | .ok config => kubernetes.NewForConfig d config w
            else
              let w := w.log .RESTConfig
              match d.RESTConfig clusterWrapper config with
              | .error err => (w, .error err)
              | .ok config => kubernetes.NewForConfig d config w

/-! ## A fixture: in-memory collaborators

Used to run the definitions on concrete requests.  The remote store is a list of
ConfigMaps of namespace `kube-system`; a read of an absent name answers with the
API server's not-found status, a create of a present name with its
already-exists status. -/

/-- In-memory ConfigMap read. -/
def fakeGet (store : List ConfigMap) (name : String) : ConfigMap × Option Error :=
  match store.find? (fun cm => cm.ObjectMeta.Name == name) with
  | some cm => (cm, none)
  | none => ({}, some (.NotFound ⟨"", "configmaps"⟩ name))

/-- In-memory ConfigMap create. -/
def fakeCreate (store : List ConfigMap) (cm : ConfigMap) : List ConfigMap × Option Error :=
  if store.any (fun x => x.ObjectMeta.Name == cm.ObjectMeta.Name) then
    (store, some (.Status "AlreadyExists" 409 "configmaps already exists"))
  else (store ++ [cm], none)

/-- In-memory collaborators over a directory of clusters; the `n`-th generated
pair is the pair of one-byte slices `[n]`, `[n + 100]`. -/
def fakeDeps (clusters : List Cluster) : Deps (List ConfigMap) where
  ClustersGet name :=
    match clusters.find? (fun c => c.ObjectMeta.Name == name) with
    | some c => .ok c
    | none => .error (.NotFound (platform.Resource "clusters") name)
  GetCluster cluster := .ok { Cluster := cluster, ClusterCredential := { Token := "admin" } }
  Clientset _ := true
  ConfigMapsGet _ store _ name := fakeGet store name
  ConfigMapsCreate _ store _ cm := fakeCreate store cm
  GenerateClientCertAndKey n _ _ _ _ := .ok ([UInt8.ofNat n], [UInt8.ofNat (n + 100)])
  RESTConfigForClientX509 cw config cert key :=
    .ok { config with
      Host := cw.Cluster.ObjectMeta.Name,
      TLSClientConfig := { CAData := cw.ClusterCredential.CACert, CertData := cert, KeyData := key } }
  RESTConfig cw config :=
    .ok { config with Host := cw.Cluster.ObjectMeta.Name, BearerToken := cw.ClusterCredential.Token }
  NewForConfig _ := none

/-- Fixture: cluster `cls-1` of tenant `t1`, unlocked. -/
def cls1 : Cluster :=
  { ObjectMeta := { Name := "cls-1" }, Spec := { TenantID := "t1" }, Status := { Locked := some false } }

/-- Fixture: cluster `cls-1` of tenant `t1`, locked. -/
def cls1Locked : Cluster :=
  { ObjectMeta := { Name := "cls-1" }, Spec := { TenantID := "t1" }, Status := { Locked := some true } }

/-- Fixture: a request for `cls-1` by principal `u1` of the given tenant. -/
def requestBy (tenantID : String) : Context :=
  { clusterName := "cls-1", username := "alice", tenantID := tenantID, uin := "u1" }

/-! ## Credential cache and issuer (`getOrCreateClientCert`) -/

/-- Record that `getOrCreateClientCert` creates for principal `uin`, cluster
`clusterName` and a generated pair. -/
def certRecord (uin clusterName : String) (clientCertData clientKeyData : Bytes) : ConfigMap :=
  { ObjectMeta := { Name := uin, ClusterName := clusterName, Labels := [("rbac.cert", "cert")] },
    Data := [("CommonName", uin), ("UIN", uin), ("clusterName", clusterName)],
    BinaryData := [("clientCertData", clientCertData), ("clientKeyData", clientKeyData)] }

/-- Fixture: the cache record of principal `u1` holding the pair `[7]`, `[8]`. -/
def recordU1 : ConfigMap := certRecord "u1" "cls-1" [7] [8]

/-- Fixture: in-memory collaborators whose store refuses every create and keeps
what it held. -/
def readOnlyDeps (clusters : List Cluster) : Deps (List ConfigMap) :=
  { fakeDeps clusters with
    ConfigMapsCreate := fun _ store _ _ =>
      (store, some (.Status "Forbidden" 403 "configmaps is forbidden")) }

/-- Fixture: in-memory collaborators whose store answers every read with the
status of an unavailable server. -/
def unavailableDeps (clusters : List Cluster) : Deps (List ConfigMap) :=
  { fakeDeps clusters with
    ConfigMapsGet := fun _ _ _ _ =>
      ({}, some (.Status "ServiceUnavailable" 503
        "the server is currently unable to handle the request")) }

/-- Fixture: in-memory collaborators on a store that another caller writes to at the
same time: between the read and the create of a record, that caller's record of
the same name, holding the pair `[42]`, `[43]`, has arrived, so the create
answers already-exists. -/
def racingDeps (clusters : List Cluster) : Deps (List ConfigMap) :=
  { fakeDeps clusters with
    ConfigMapsCreate := fun _ store _ cm =>
      (store ++ [certRecord cm.ObjectMeta.Name cm.ObjectMeta.ClusterName [42] [43]],
        some (.Status "AlreadyExists" 409 "configmaps already exists")) }

/-- The sorted group list of the spec (§4.2 step 1): the groups in ascending order.
The source has no sorting step; this definition follows the spec's words and is
compared with `makeClientKey` below. -/
def sortedGroups (groups : List String) : List String :=
  groups.insertionSort (fun a b => a ≤ b)

/-- What a group name has to be for the printed list to be read back without doubt:
not empty and without a space. -/
def plainGroup (g : String) : Bool := g != "" && !g.data.contains ' '

/-- The characters that the verb `%v` prints for the elements after the first: each
one after a space. -/
def tailChars (groups : List String) : List Char := groups.flatMap fun g => ' ' :: g.data

/-- The accessors of a `kubernetes.Clientset` that `RESTClientFor` can hand out: one
per typed group/version client, and `RESTClient`, the accessor of the client set
itself (`clientSet.RESTClient()`). -/
inductive Accessor where
  | CoreV1 | AppsV1 | AppsV1beta1 | AdmissionregistrationV1beta1 | AppsV1beta2
  | AutoscalingV1 | AutoscalingV2beta1 | BatchV1 | BatchV1beta1 | BatchV2alpha1
  | CertificatesV1beta1 | EventsV1beta1 | ExtensionsV1beta1 | NetworkingV1
  | NetworkingV1beta1 | CoordinationV1 | CoordinationV1beta1 | PolicyV1beta1
  | RbacV1alpha1 | RbacV1 | RbacV1beta1 | SchedulingV1alpha1 | SchedulingV1beta1
  | NodeV1alpha1 | NodeV1beta1 | SchedulingV1 | SettingsV1alpha1 | StorageV1alpha1
  | StorageV1 | StorageV1beta1 | RESTClient
deriving DecidableEq, Repr

/-- A `restclient.Interface` obtained from a client set: which accessor of which
client set (every accessor is bound to the connection of its client set). -/
structure RESTInterface where
  clientSet : Clientset
  accessor : Accessor
deriving DecidableEq, Repr

/-- Function `RESTClientFor`.  `ToLower` is `strings.ToLower`. -/
def RESTClientFor (ToLower : String → String) (clientSet : Clientset)
    (apiGroup apiVersion : String) : RESTInterface :=
  let gv := ToLower apiGroup ++ "/" ++ ToLower apiVersion
  if gv = "/v1" then ⟨clientSet, .CoreV1⟩
  else if gv = "apps/v1" then ⟨clientSet, .AppsV1⟩
  else if gv = "apps/v1beta1" then ⟨clientSet, .AppsV1beta1⟩
  else if gv = "admissionregistration.k8s.io/v1beta1" then ⟨clientSet, .AdmissionregistrationV1beta1⟩
  else if gv = "apps/v1beta2" then ⟨clientSet, .AppsV1beta2⟩
  else if gv = "autoscaling/v1" then ⟨clientSet, .AutoscalingV1⟩
  else if gv = "autoscaling/v2beta1" then ⟨clientSet, .AutoscalingV2beta1⟩
  else if gv = "batch/v1" then ⟨clientSet, .BatchV1⟩
  else if gv = "batch/v1beta1" then ⟨clientSet, .BatchV1beta1⟩
  else if gv = "batch/v2alpha1" then ⟨clientSet, .BatchV2alpha1⟩
  else if gv = "certificates.k8s.io/v1beta1" then ⟨clientSet, .CertificatesV1beta1⟩
  else if gv = "events.k8s.io/v1beta1" then ⟨clientSet, .EventsV1beta1⟩
  else if gv = "extensions/v1beta1" then ⟨clientSet, .ExtensionsV1beta1⟩
  else if gv = "networking.k8s.io/v1" then ⟨clientSet, .NetworkingV1⟩
  else if gv = "networking.k8s.io/v1beta1" then ⟨clientSet, .NetworkingV1beta1⟩
  else if gv = "coordination.k8s.io/v1" then ⟨clientSet, .CoordinationV1⟩
  else if gv = "coordination.k8s.io/v1beta1" then ⟨clientSet, .CoordinationV1beta1⟩
  else if gv = "policy/v1beta1" then ⟨clientSet, .PolicyV1beta1⟩
  else if gv = "rbac.authorization.k8s.io/v1alpha1" then ⟨clientSet, .RbacV1alpha1⟩
  else if gv = "rbac.authorization.k8s.io/v1" then ⟨clientSet, .RbacV1⟩
  else if gv = "rbac.authorization.k8s.io/v1beta1" then ⟨clientSet, .RbacV1beta1⟩
  else if gv = "scheduling.k8s.io/v1alpha1" then ⟨clientSet, .SchedulingV1alpha1⟩
  else if gv = "scheduling.k8s.io/v1beta1" then ⟨clientSet, .SchedulingV1beta1⟩
  else if gv = "node.k8s.io/v1alpha1" then ⟨clientSet, .NodeV1alpha1⟩
  else if gv = "node.k8s.io/v1beta1" then ⟨clientSet, .NodeV1beta1⟩
  else if gv = "scheduling.k8s.io/v1" then ⟨clientSet, .SchedulingV1⟩
  else if gv = "settings.k8s.io/v1alpha1" then ⟨clientSet, .SettingsV1alpha1⟩
  else if gv = "storage.k8s.io/v1alpha1" then ⟨clientSet, .StorageV1alpha1⟩
  else if gv = "storage.k8s.io/v1" then ⟨clientSet, .StorageV1⟩
  else if gv = "storage.k8s.io/v1beta1" then ⟨clientSet, .StorageV1beta1⟩
  else ⟨clientSet, .RESTClient⟩

/-- The static routing table of the spec (§4.4): normalized `group/version` keys and
the typed accessor of each.  It follows the spec's words and is compared with the
`switch` of `RESTClientFor` below. -/
def routingTable : List (String × Accessor) :=
  [("/v1", .CoreV1),
   ("apps/v1", .AppsV1),
   ("apps/v1beta1", .AppsV1beta1),
   ("admissionregistration.k8s.io/v1beta1", .AdmissionregistrationV1beta1),
   ("apps/v1beta2", .AppsV1beta2),
   ("autoscaling/v1", .AutoscalingV1),
   ("autoscaling/v2beta1", .AutoscalingV2beta1),
   ("batch/v1", .BatchV1),
   ("batch/v1beta1", .BatchV1beta1),
   ("batch/v2alpha1", .BatchV2alpha1),
   ("certificates.k8s.io/v1beta1", .CertificatesV1beta1),
   ("events.k8s.io/v1beta1", .EventsV1beta1),
   ("extensions/v1beta1", .ExtensionsV1beta1),
   ("networking.k8s.io/v1", .NetworkingV1),
   ("networking.k8s.io/v1beta1", .NetworkingV1beta1),
   ("coordination.k8s.io/v1", .CoordinationV1),
   ("coordination.k8s.io/v1beta1", .CoordinationV1beta1),
   ("policy/v1beta1", .PolicyV1beta1),
   ("rbac.authorization.k8s.io/v1alpha1", .RbacV1alpha1),
   ("rbac.authorization.k8s.io/v1", .RbacV1),
   ("rbac.authorization.k8s.io/v1beta1", .RbacV1beta1),
   ("scheduling.k8s.io/v1alpha1", .SchedulingV1alpha1),
   ("scheduling.k8s.io/v1beta1", .SchedulingV1beta1),
   ("node.k8s.io/v1alpha1", .NodeV1alpha1),
   ("node.k8s.io/v1beta1", .NodeV1beta1),
   ("scheduling.k8s.io/v1", .SchedulingV1),
   ("settings.k8s.io/v1alpha1", .SettingsV1alpha1),
   ("storage.k8s.io/v1alpha1", .StorageV1alpha1),
   ("storage.k8s.io/v1", .StorageV1),
   ("storage.k8s.io/v1beta1", .StorageV1beta1)]

/-- Lowering of the ASCII letters, which is what `strings.ToLower` does on a string
of ASCII characters; used to run `RESTClientFor` on concrete strings. -/
def asciiToLower (s : String) : String := ⟨s.data.map Char.toLower⟩

end proxy

namespace storage

/-! ## `cls_logconfig.go`: the log-config reverse proxy handler

Go pointers and maps are references, so the handler is modelled over a heap:
a `*url.URL` is the index of a cell of `urls`, an `http.Header` is `none` (the nil
map) or the index of a map of `headers`.  The model ends where the handler calls
`reserveProxy.ServeHTTP(w, newReq)`: it returns the proxy it has configured and
the request it hands over. -/

/-- Type `url.URL`, the string fields. -/
structure URL where
  Scheme : String := ""
  Host : String := ""
  Path : String := ""
  RawPath : String := ""
  RawQuery : String := ""
  Fragment : String := ""
deriving DecidableEq, Repr

/-- The map behind an `http.Header`: key to list of values. -/
abbrev Header := List (String × List String)

/-- Index expression `h[key]` on a header map. -/
def Header.values (h : Header) (key : String) : Option (List String) := h.lookup key

/-- Method `Header.Set` for a key given in canonical form (`Authorization` is so):
the values of the key become the one value. -/
def Header.Set : Header → String → String → Header
  | [], key, value => [(key, [value])]
  | (k, vs) :: h, key, value =>
    if k = key then (key, [value]) :: h else (k, vs) :: Header.Set h key value

/-- Function `netutil.CloneHeader`: a new map with a copy of every value list. -/
def CloneHeader (h : Header) : Header := h.map fun (key, values) => (key, values.map id)

/-- Contexts a request can carry. -/
inductive Ctx where
  | Background
  | Inbound (id : Nat)
deriving DecidableEq, Repr

/-- Type `http.Request`, the fields the handler touches or passes on. -/
structure Request where
  Method : String := "GET"
  URL : Nat
  Header : Option Nat
  Host : String := ""
  ctx : Ctx := .Inbound 0
deriving DecidableEq, Repr

/-- Method `Request.WithContext`: a shallow copy with the context replaced. -/
def Request.WithContext (r : Request) (ctx : Ctx) : Request := { r with ctx := ctx }

/-- The cells that pointers and header maps refer to. -/
structure Heap where
  urls : List URL := []
  headers : List Header := []
deriving DecidableEq, Repr

/-- Dereference of a `*url.URL`; `none` when the pointer is nil. -/
def Heap.url (heap : Heap) (p : Nat) : Option URL := heap.urls[p]?

/-- The map of an `http.Header`; the nil map reads as the empty map. -/
def Heap.header (heap : Heap) (h : Option Nat) : Option Header :=
  match h with
  | none => some []
  | some r => heap.headers[r]?

/-- Call `m.Set(key, value)` on the header map of reference `r`: the map is updated
in place, so every holder of the reference sees it. -/
def Heap.setHeader (heap : Heap) (r : Nat) (key value : String) : Heap :=
  match heap.headers[r]? with
  | some m => { heap with headers := heap.headers.set r (Header.Set m key value) }
  | none => heap

/-- Type `clsLogConfigProxyHandler`; the transport is named by a number. -/
structure clsLogConfigProxyHandler where
  transport : Nat := 0
  location : Nat
  token : String := ""
  name : String := ""
deriving DecidableEq, Repr

/-- Type `httputil.ReverseProxy` as the handler sets it up: the target given to
`NewSingleHostReverseProxy`, the transport and the flush interval in nanoseconds. -/
structure ReverseProxy where
  target : URL
  Transport : Nat
  FlushInterval : Nat
deriving DecidableEq, Repr

/-- The call `reserveProxy.ServeHTTP(w, newReq)` that ends the handler. -/
structure Forwarded where
  reserveProxy : ReverseProxy
  newReq : Request
deriving DecidableEq, Repr

/-- Constant `time.Millisecond`, in nanoseconds. -/
def Millisecond : Nat := 1000000

/-- Predicate `unicode.IsSpace`. -/
def IsSpace (r : Char) : Bool :=
  let n := r.toNat
  n = 0x09 || n = 0x0A || n = 0x0B || n = 0x0C || n = 0x0D || n = 0x20 || n = 0x85 || n = 0xA0 ||
  n = 0x1680 || (0x2000 ≤ n && n ≤ 0x200A) || n = 0x2028 || n = 0x2029 || n = 0x202F ||
  n = 0x205F || n = 0x3000

/-- Function `strings.TrimSpace`: all leading and trailing white space removed. -/
def TrimSpace (s : String) : String :=
  ⟨((s.data.dropWhile IsSpace).reverse.dropWhile IsSpace).reverse⟩

/-- Method `clsLogConfigProxyHandler.ServeHTTP`, up to the hand-over to the reverse
proxy.  `none` is the nil-pointer panic of `*h.location` or `req.URL.RawQuery`. -/
def ServeHTTP (h : clsLogConfigProxyHandler) (req : Request) (heap : Heap) :
    Option (Heap × Forwarded) :=
  match heap.url h.location, heap.url req.URL, heap.header req.Header with
  | some location, some reqURL, some reqHeader =>
    -- loc := *h.location
    let loc := location
    let loc := { loc with RawQuery := reqURL.RawQuery }
    let pfx := "/apis/cls.cloud.tencent.com/v1/logconfigs"
    let loc :=
      if h.name.utf8ByteSize = 0 then { loc with Path := pfx }
      else { loc with Path := pfx ++ "/" ++ h.name }
    let newReq := req.WithContext .Background
    -- newReq.Header = netutil.CloneHeader(req.Header): a new map
    let newHeader := heap.headers.length
    let heap := { heap with headers := heap.headers ++ [CloneHeader reqHeader] }
    let newReq := { newReq with Header := some newHeader }
    -- newReq.URL = &loc: the local lives in a new cell
    let locPtr := heap.urls.length
    let heap := { heap with urls := heap.urls ++ [loc] }
    let newReq := { newReq with URL := locPtr }
    let heap :=
      if h.token ≠ "" then
        heap.setHeader newHeader "Authorization" ("Bearer " ++ TrimSpace h.token)
      else heap
    -- no cell of `heap.urls` has been written, `h.location` still reads `location`
    let reserveProxy : ReverseProxy :=
      { target := { Scheme := location.Scheme, Host := location.Host },
        Transport := h.transport,
        FlushInterval := 100 * Millisecond }
    some (heap, { reserveProxy := reserveProxy, newReq := newReq })
  | _, _, _ => none

/-- Fixture: a heap with the API server location, an inbound URL and inbound headers. -/
def heapEx : Heap :=
  { urls := [{ Scheme := "https", Host := "10.0.0.1:6443", Path := "/base" },
             { Path := "/apis/platform/clusters/cls-1/logconfigs", RawQuery := "watch=true&x=%20y" }],
    headers := [[("Accept", ["application/json"]), ("Authorization", ["Bearer inbound", "Basic zzz"])]] }

/-- Fixture: the inbound request over `heapEx`. -/
def reqEx : Request := { Method := "GET", URL := 1, Header := some 0 }

end storage

namespace proxy

/-! ## Facts about the Go primitives -/

theorem utf8ByteSize_pos_iff (s : String) : s.utf8ByteSize > 0 ↔ s ≠ "" := by
  rcases s with ⟨cs⟩
  cases cs with
  | nil => simp [String.utf8ByteSize, String.utf8ByteSize.go]
  | cons c cs =>
    have hc := Char.utf8Size_pos c
    have hne : (String.mk (c :: cs)) ≠ "" := by
      intro h
      have := congrArg String.data h
      simp at this
    simp only [String.utf8ByteSize, String.utf8ByteSize.go, gt_iff_lt, ne_eq, hne,
      not_false_eq_true, iff_true]
    omega

/-! ## Cluster resolution (`ClientSet`) -/

/-- Resolution of a locked cluster, as the code does it: the directory is read once,
the plain `fmt.Errorf` error comes back, and nothing else is called. -/
theorem ClientSet_of_locked {σ : Type} (d : Deps σ) (ctx : Context) (w : World σ)
    (cluster : Cluster) (hname : ctx.clusterName ≠ "")
    (hget : d.ClustersGet ctx.clusterName = .ok cluster)
    (hlocked : cluster.Status.Locked = some true) :
    ClientSet d ctx w =
      (w.log (.ClustersGet ctx.clusterName),
        .error (.Errorf ("cluster " ++ cluster.ObjectMeta.Name ++ " has been locked"))) := by
  simp [ClientSet, hname, hget, hlocked]

/-- Resolution of an unlocked cluster of another tenant: the directory is read once
and `NewNotFound` for the cluster's name comes back. -/
theorem ClientSet_of_foreign_tenant {σ : Type} (d : Deps σ) (ctx : Context) (w : World σ)
    (cluster : Cluster) (hname : ctx.clusterName ≠ "")
    (hget : d.ClustersGet ctx.clusterName = .ok cluster)
    (hunlocked : cluster.Status.Locked ≠ some true)
    (htenant : ctx.tenantID ≠ "") (hdiff : cluster.Spec.TenantID ≠ ctx.tenantID) :
    ClientSet d ctx w =
      (w.log (.ClustersGet ctx.clusterName),
        .error (.NotFound (platform.Resource "clusters") cluster.ObjectMeta.Name)) := by
  have hlen : ctx.tenantID.utf8ByteSize > 0 := (utf8ByteSize_pos_iff _).2 htenant
  simp [ClientSet, hname, hget, hunlocked, hlen, hdiff]

/-- Resolution when the directory has no cluster under the name: its error is
handed back unchanged. -/
theorem ClientSet_of_missing {σ : Type} (d : Deps σ) (ctx : Context) (w : World σ)
    (err : Error) (hname : ctx.clusterName ≠ "")
    (hget : d.ClustersGet ctx.clusterName = .error err) :
    ClientSet d ctx w = (w.log (.ClustersGet ctx.clusterName), .error err) := by
  simp [ClientSet, hname, hget]

/-- C1, counterexample: for the locked cluster `cls-1` and a caller of its own tenant,
`ClientSet` fails with the plain error `cluster cls-1 has been locked`, which carries
no API status; no error of the class mapped to 409 comes back. -/
theorem ClientSet_locked_is_not_conflict :
    (ClientSet (fakeDeps [cls1Locked]) (requestBy "t1") { store := [] }).2 =
        .error (.Errorf "cluster cls-1 has been locked") ∧
      (Error.Errorf "cluster cls-1 has been locked").isStatus = false ∧
      ¬ ∃ e, (ClientSet (fakeDeps [cls1Locked]) (requestBy "t1") { store := [] }).2 = .error e ∧
          e.httpCode = 409 := by
  have h : (ClientSet (fakeDeps [cls1Locked]) (requestBy "t1") { store := [] }).2 =
      .error (.Errorf "cluster cls-1 has been locked") := by decide
  refine ⟨h, rfl, ?_⟩
  rintro ⟨e, he, hcode⟩
  rw [h] at he
  cases he
  revert hcode
  decide

/-- C1, amended: for every request that names a cluster the directory holds with its
lock flag set, and for every caller identity, `ClientSet` fails with the plain
(status-less, hence 500-class) error `cluster <name> has been locked`; it has read
the directory once and made no other call: the remote store and the entropy are
untouched and the trace holds no cache read, CA fetch, generation or write. -/
theorem ClientSet_locked_fails_before_store {σ : Type} (d : Deps σ) (ctx : Context)
    (w : World σ) (cluster : Cluster) (hname : ctx.clusterName ≠ "")
    (hget : d.ClustersGet ctx.clusterName = .ok cluster)
    (hlocked : cluster.Status.Locked = some true) :
    (ClientSet d ctx w).2 =
        .error (.Errorf ("cluster " ++ cluster.ObjectMeta.Name ++ " has been locked")) ∧
      (Error.Errorf ("cluster " ++ cluster.ObjectMeta.Name ++ " has been locked")).isStatus = false ∧
      (Error.Errorf ("cluster " ++ cluster.ObjectMeta.Name ++ " has been locked")).httpCode = 500 ∧
      (ClientSet d ctx w).1.store = w.store ∧
      (ClientSet d ctx w).1.rand = w.rand ∧
      (ClientSet d ctx w).1.trace = w.trace ++ [.ClustersGet ctx.clusterName] := by
  rw [ClientSet_of_locked d ctx w cluster hname hget hlocked]
  exact ⟨rfl, rfl, rfl, rfl, rfl, rfl⟩

/-- Witness of C1, amended, at the locked cluster `cls-1` and a caller of tenant `t2`. -/
theorem ClientSet_locked_fails_before_store_witness :
    (ClientSet (fakeDeps [cls1Locked]) (requestBy "t2") { store := [] }).2 =
        .error (.Errorf ("cluster " ++ cls1Locked.ObjectMeta.Name ++ " has been locked")) ∧
      (ClientSet (fakeDeps [cls1Locked]) (requestBy "t2") { store := [] }).1.trace =
        [] ++ [.ClustersGet "cls-1"] :=
  have h := ClientSet_locked_fails_before_store (fakeDeps [cls1Locked]) (requestBy "t2")
    { store := [] } cls1Locked (by decide) rfl rfl
  ⟨h.1, h.2.2.2.2.2⟩

/-- C2, counterexample: the caller of tenant `t2` asks for `cls-1`, a locked cluster of
tenant `t1`.  `ClientSet` answers `cluster cls-1 has been locked`, not NotFound, and
the answer differs from the one the same caller gets from an empty directory. -/
theorem ClientSet_foreign_tenant_sees_lock :
    (ClientSet (fakeDeps [cls1Locked]) (requestBy "t2") { store := [] }).2 =
        .error (.Errorf "cluster cls-1 has been locked") ∧
      (ClientSet (fakeDeps []) (requestBy "t2") { store := [] }).2 =
        .error (.NotFound (platform.Resource "clusters") "cls-1") ∧
      (ClientSet (fakeDeps [cls1Locked]) (requestBy "t2") { store := [] }).2 ≠
        (ClientSet (fakeDeps []) (requestBy "t2") { store := [] }).2 := by
  decide

/-- C2, amended: for every request with a non-empty cluster name, by a caller whose
tenant is non-empty and differs from the tenant of the cluster stored under that
name, if that cluster is not locked then `ClientSet` fails with NotFound for the
stored cluster's name after reading only the directory; and when the stored
cluster carries the name it is stored under, world and result are the same as with
any directory that answers NotFound for that name. -/
theorem ClientSet_foreign_tenant_not_found {σ : Type} (d dMissing : Deps σ) (ctx : Context)
    (w : World σ) (cluster : Cluster) (hname : ctx.clusterName ≠ "")
    (hget : d.ClustersGet ctx.clusterName = .ok cluster)
    (hunlocked : cluster.Status.Locked ≠ some true)
    (htenant : ctx.tenantID ≠ "") (hdiff : cluster.Spec.TenantID ≠ ctx.tenantID)
    (hmissing : dMissing.ClustersGet ctx.clusterName =
      .error (.NotFound (platform.Resource "clusters") ctx.clusterName)) :
    (ClientSet d ctx w).2 =
        .error (.NotFound (platform.Resource "clusters") cluster.ObjectMeta.Name) ∧
      (ClientSet d ctx w).1 = w.log (.ClustersGet ctx.clusterName) ∧
      (cluster.ObjectMeta.Name = ctx.clusterName → ClientSet d ctx w = ClientSet dMissing ctx w) := by
  rw [ClientSet_of_foreign_tenant d ctx w cluster hname hget hunlocked htenant hdiff,
    ClientSet_of_missing dMissing ctx w _ hname hmissing]
  refine ⟨rfl, rfl, ?_⟩
  intro h
  rw [h]

/-- Witness of C2, amended: the caller of tenant `t2` asks for the unlocked `cls-1` of
tenant `t1`, compared with an empty directory. -/
theorem ClientSet_foreign_tenant_not_found_witness :
    (ClientSet (fakeDeps [cls1]) (requestBy "t2") { store := [] }).2 =
        .error (.NotFound (platform.Resource "clusters") "cls-1") ∧
      ClientSet (fakeDeps [cls1]) (requestBy "t2") { store := [] } =
        ClientSet (fakeDeps []) (requestBy "t2") { store := [] } :=
  have h := ClientSet_foreign_tenant_not_found (fakeDeps [cls1]) (fakeDeps []) (requestBy "t2")
    { store := [] } cls1 (by decide) rfl (by decide) (by decide) (by decide) rfl
  ⟨h.1, h.2.2 rfl⟩

/-- Cache hit: one read, and the record's two entries are the result. -/
theorem getOrCreateClientCert_of_hit {σ : Type} (d : Deps σ) (ctx : Context)
    (clusterWrapper : ClusterWrapper) (w : World σ) (cache : ConfigMap)
    (hname : ctx.clusterName ≠ "") (hclient : d.Clientset clusterWrapper = true)
    (hread : d.ConfigMapsGet clusterWrapper w.store "kube-system" ctx.uin = (cache, none)) :
    getOrCreateClientCert d ctx clusterWrapper w =
      (w.log (.ConfigMapsGet "kube-system" ctx.uin), clusterWrapper,
        .ok (bytesAt cache.BinaryData "clientCertData", bytesAt cache.BinaryData "clientKeyData")) := by
  have hread2 : d.ConfigMapsGet clusterWrapper
      (w.log (.ConfigMapsGet "kube-system" ctx.uin)).store "kube-system" ctx.uin = (cache, none) := hread
  simp only [getOrCreateClientCert, hname, hclient, hread2]
  simp

/-- Cache miss with generation and create succeeding: the read, the CA read, the
generation and the create are made in this order, the entropy advances by one,
and the generated pair is the result. -/
theorem getOrCreateClientCert_of_miss {σ : Type} (d : Deps σ) (ctx : Context)
    (clusterWrapper : ClusterWrapper) (w : World σ) (absent : ConfigMap) (err : Error)
    (clientCertData clientKeyData : Bytes) (store : σ)
    (hname : ctx.clusterName ≠ "") (hclient : d.Clientset clusterWrapper = true)
    (hread : d.ConfigMapsGet clusterWrapper w.store "kube-system" ctx.uin = (absent, some err))
    (hnotfound : IsNotFoundError err = true)
    (hgen : d.GenerateClientCertAndKey w.rand ctx.uin []
      (bytesOf (strAt (d.ConfigMapsGet clusterWrapper w.store "kube-system" "config").1.Data "ca.crt"))
      (bytesOf (strAt (d.ConfigMapsGet clusterWrapper w.store "kube-system" "config").1.Data "ca.key"))
        = .ok (clientCertData, clientKeyData))
    (hcreate : d.ConfigMapsCreate clusterWrapper w.store "kube-system"
      (certRecord ctx.uin ctx.clusterName clientCertData clientKeyData) = (store, none)) :
    getOrCreateClientCert d ctx clusterWrapper w =
      ({ store := store, rand := w.rand + 1,
         trace := w.trace ++
          [.ConfigMapsGet "kube-system" ctx.uin, .ConfigMapsGet "kube-system" "config",
           .GenerateClientCertAndKey ctx.uin []
            (bytesOf (strAt (d.ConfigMapsGet clusterWrapper w.store "kube-system" "config").1.Data "ca.crt"))
            (bytesOf (strAt (d.ConfigMapsGet clusterWrapper w.store "kube-system" "config").1.Data "ca.key")),
           .ConfigMapsCreate "kube-system"
            (certRecord ctx.uin ctx.clusterName clientCertData clientKeyData)] },
        { clusterWrapper with ClusterCredential := { clusterWrapper.ClusterCredential with
            CACert := bytesOf (strAt (d.ConfigMapsGet clusterWrapper w.store "kube-system" "config").1.Data "ca.crt"),
            CAKey := bytesOf (strAt (d.ConfigMapsGet clusterWrapper w.store "kube-system" "config").1.Data "ca.key") } },
        .ok (clientCertData, clientKeyData)) := by
  simp only [getOrCreateClientCert, hname, hclient, World.log, hread, hnotfound, hgen,
    certRecord] at hcreate ⊢
  simp [hcreate]

/-- C3: when the read of the caller's cache record succeeds (the request names a
cluster, the wrapper yields a client, and the client's `Get` of the record named
by the principal returns `cache` without error), `getOrCreateClientCert` returns
exactly the record's `clientCertData` and `clientKeyData` entries with no error;
that read is its only call (no CA read, no generation, no create), the store,
the entropy and the wrapper's credential are unchanged. -/
theorem getOrCreateClientCert_cache_hit {σ : Type} (d : Deps σ) (ctx : Context)
    (clusterWrapper : ClusterWrapper) (w : World σ) (cache : ConfigMap)
    (hname : ctx.clusterName ≠ "") (hclient : d.Clientset clusterWrapper = true)
    (hread : d.ConfigMapsGet clusterWrapper w.store "kube-system" ctx.uin = (cache, none)) :
    (getOrCreateClientCert d ctx clusterWrapper w).2.2 =
        .ok (bytesAt cache.BinaryData "clientCertData", bytesAt cache.BinaryData "clientKeyData") ∧
      (getOrCreateClientCert d ctx clusterWrapper w).1.trace =
        w.trace ++ [.ConfigMapsGet "kube-system" ctx.uin] ∧
      (getOrCreateClientCert d ctx clusterWrapper w).1.store = w.store ∧
      (getOrCreateClientCert d ctx clusterWrapper w).1.rand = w.rand ∧
      (getOrCreateClientCert d ctx clusterWrapper w).2.1 = clusterWrapper := by
  rw [getOrCreateClientCert_of_hit d ctx clusterWrapper w cache hname hclient hread]
  exact ⟨rfl, rfl, rfl, rfl, rfl⟩

/-- Witness of C3: the store holds `recordU1`, and its pair comes back. -/
theorem getOrCreateClientCert_cache_hit_witness :
    (getOrCreateClientCert (fakeDeps [cls1]) (requestBy "t1") { Cluster := cls1 }
        { store := [recordU1] }).2.2 = .ok ([7], [8]) ∧
      (getOrCreateClientCert (fakeDeps [cls1]) (requestBy "t1") { Cluster := cls1 }
        { store := [recordU1] }).1.trace = [] ++ [.ConfigMapsGet "kube-system" "u1"] :=
  have h := getOrCreateClientCert_cache_hit (fakeDeps [cls1]) (requestBy "t1") { Cluster := cls1 }
    { store := [recordU1] } recordU1 (by decide) rfl rfl
  ⟨h.1, h.2.1⟩

/-- C4: on a store that reports the caller's record as not found, with the
generation and the create succeeding, the first call returns the generated pair
and leaves a store from which the record named by the principal reads back with
exactly that pair; a second call on the resulting world returns the same pair,
its only call is the read of that record, and the entropy is not drawn on again.
The store is any store whose `Get` returns, with the same binary data, a record
that a `Create` has just stored. -/
theorem getOrCreateClientCert_issue_then_reuse {σ : Type} (d : Deps σ) (ctx : Context)
    (clusterWrapper second : ClusterWrapper) (w : World σ) (absent : ConfigMap) (err : Error)
    (clientCertData clientKeyData : Bytes) (store : σ)
    (hname : ctx.clusterName ≠ "") (hclient : d.Clientset clusterWrapper = true)
    (hsecond : d.Clientset second = true)
    (hread : d.ConfigMapsGet clusterWrapper w.store "kube-system" ctx.uin = (absent, some err))
    (hnotfound : IsNotFoundError err = true)
    (hgen : d.GenerateClientCertAndKey w.rand ctx.uin []
      (bytesOf (strAt (d.ConfigMapsGet clusterWrapper w.store "kube-system" "config").1.Data "ca.crt"))
      (bytesOf (strAt (d.ConfigMapsGet clusterWrapper w.store "kube-system" "config").1.Data "ca.key"))
        = .ok (clientCertData, clientKeyData))
    (hcreate : d.ConfigMapsCreate clusterWrapper w.store "kube-system"
      (certRecord ctx.uin ctx.clusterName clientCertData clientKeyData) = (store, none))
    (hstore : ∀ s cm s1, d.ConfigMapsCreate clusterWrapper s "kube-system" cm = (s1, none) →
      ∃ r, d.ConfigMapsGet second s1 "kube-system" cm.ObjectMeta.Name = (r, none) ∧
        r.BinaryData = cm.BinaryData) :
    (getOrCreateClientCert d ctx clusterWrapper w).2.2 = .ok (clientCertData, clientKeyData) ∧
      (∃ r, d.ConfigMapsGet second (getOrCreateClientCert d ctx clusterWrapper w).1.store
          "kube-system" ctx.uin = (r, none) ∧
        bytesAt r.BinaryData "clientCertData" = clientCertData ∧
        bytesAt r.BinaryData "clientKeyData" = clientKeyData) ∧
      (getOrCreateClientCert d ctx second (getOrCreateClientCert d ctx clusterWrapper w).1).2.2 =
        .ok (clientCertData, clientKeyData) ∧
      (getOrCreateClientCert d ctx second (getOrCreateClientCert d ctx clusterWrapper w).1).1.trace =
        (getOrCreateClientCert d ctx clusterWrapper w).1.trace ++
          [.ConfigMapsGet "kube-system" ctx.uin] ∧
      (getOrCreateClientCert d ctx second (getOrCreateClientCert d ctx clusterWrapper w).1).1.rand =
        (getOrCreateClientCert d ctx clusterWrapper w).1.rand ∧
      (getOrCreateClientCert d ctx second (getOrCreateClientCert d ctx clusterWrapper w).1).1.store =
        (getOrCreateClientCert d ctx clusterWrapper w).1.store := by
  obtain ⟨r, hr, hbin⟩ := hstore _ _ _ hcreate
  have hcert : bytesAt r.BinaryData "clientCertData" = clientCertData := by
    rw [hbin]; simp [certRecord, bytesAt, List.lookup]
  have hkey : bytesAt r.BinaryData "clientKeyData" = clientKeyData := by
    rw [hbin]; simp [certRecord, bytesAt, List.lookup]
  rw [getOrCreateClientCert_of_miss d ctx clusterWrapper w absent err clientCertData
    clientKeyData store hname hclient hread hnotfound hgen hcreate]
  have hr2 : d.ConfigMapsGet second store "kube-system" ctx.uin = (r, none) := hr
  refine ⟨rfl, ⟨r, hr2, hcert, hkey⟩, ?_⟩
  rw [getOrCreateClientCert_of_hit d ctx second _ r hname hsecond hr2, hcert, hkey]
  exact ⟨rfl, rfl, rfl, rfl⟩

/-- Reading back from the in-memory store what was just created. -/
theorem fakeGet_of_fakeCreate (s : List ConfigMap) (cm : ConfigMap) (s1 : List ConfigMap)
    (h : fakeCreate s cm = (s1, none)) :
    ∃ r, fakeGet s1 cm.ObjectMeta.Name = (r, none) ∧ r.BinaryData = cm.BinaryData := by
  unfold fakeCreate at h
  split at h
  · simp at h
  · rename_i hany
    simp only [Prod.mk.injEq, and_true] at h
    subst h
    refine ⟨cm, ?_, rfl⟩
    have hnone : List.find? (fun x => x.ObjectMeta.Name == cm.ObjectMeta.Name) s = none := by
      rw [List.find?_eq_none]
      intro x hx hxe
      exact hany (List.any_eq_true.2 ⟨x, hx, hxe⟩)
    simp [fakeGet, List.find?_append, hnone]

/-- Witness of C4: principal `u1` on the empty in-memory store of `cls-1`. -/
theorem getOrCreateClientCert_issue_then_reuse_witness :
    (getOrCreateClientCert (fakeDeps [cls1]) (requestBy "t1") { Cluster := cls1 }
        { store := [] }).2.2 = .ok ([0], [100]) ∧
      (getOrCreateClientCert (fakeDeps [cls1]) (requestBy "t1") { Cluster := cls1 }
        (getOrCreateClientCert (fakeDeps [cls1]) (requestBy "t1") { Cluster := cls1 }
          { store := [] }).1).2.2 = .ok ([0], [100]) :=
  have h := getOrCreateClientCert_issue_then_reuse (fakeDeps [cls1]) (requestBy "t1")
    { Cluster := cls1 } { Cluster := cls1 } { store := [] } {}
    (.NotFound ⟨"", "configmaps"⟩ "u1") [0] [100] [certRecord "u1" "cls-1" [0] [100]]
    (by decide) rfl rfl rfl (by decide) rfl rfl
    (fun s cm s1 hc => fakeGet_of_fakeCreate s cm s1 hc)
  ⟨h.1, h.2.2.1⟩

/-! ## Choice of credential in `ClientSet` -/

/-- The calls `getOrCreateClientCert` adds to the trace never include `RESTConfig`. -/
theorem getOrCreateClientCert_trace {σ : Type} (d : Deps σ) (ctx : Context)
    (clusterWrapper : ClusterWrapper) (w : World σ) :
    ∃ added, (getOrCreateClientCert d ctx clusterWrapper w).1.trace = w.trace ++ added ∧
      Call.RESTConfig ∉ added := by
  unfold getOrCreateClientCert
  simp only [World.log]
  split
  · exact ⟨[], by simp⟩
  · split
    · exact ⟨[], by simp⟩
    · split
      · split
        · split
          · exact ⟨_, by simp only [List.append_assoc]; rfl, by simp⟩
          · split
            · exact ⟨_, by simp only [List.append_assoc]; rfl, by simp⟩
            · exact ⟨_, by simp only [List.append_assoc]; rfl, by simp⟩
        · exact ⟨_, rfl, by simp⟩
      · exact ⟨_, rfl, by simp⟩

/-- After resolution has succeeded, `ClientSet` is its credential branch. -/
theorem ClientSet_of_resolved {σ : Type} (d : Deps σ) (ctx : Context) (w : World σ)
    (cluster : Cluster) (clusterWrapper : ClusterWrapper) (hname : ctx.clusterName ≠ "")
    (hget : d.ClustersGet ctx.clusterName = .ok cluster)
    (hunlocked : cluster.Status.Locked ≠ some true)
    (htenant : ctx.tenantID = "" ∨ cluster.Spec.TenantID = ctx.tenantID)
    (hwrap : d.GetCluster cluster = .ok clusterWrapper) :
    ClientSet d ctx w =
      if ctx.uin ≠ "" then
        match getOrCreateClientCert d ctx clusterWrapper
          ((w.log (.ClustersGet ctx.clusterName)).log (.GetCluster cluster)) with
        | (w1, _, .panic) => (w1, .panic)
        | (w1, _, .error err) => (w1, .error err)
        | (w1, cw1, .ok (clientCertData, clientKeyData)) =>
          match d.RESTConfigForClientX509 cw1 {} clientCertData clientKeyData with
          | .error err => (w1.log (.RESTConfigForClientX509 clientCertData clientKeyData), .error err)
          | .ok config => kubernetes.NewForConfig d config
              (w1.log (.RESTConfigForClientX509 clientCertData clientKeyData))
      else
        match d.RESTConfig clusterWrapper {} with
        | .error err =>
          (((w.log (.ClustersGet ctx.clusterName)).log (.GetCluster cluster)).log .RESTConfig,
            .error err)
        | .ok config => kubernetes.NewForConfig d config
            (((w.log (.ClustersGet ctx.clusterName)).log (.GetCluster cluster)).log .RESTConfig) := by
  have ht : ¬ (ctx.tenantID.utf8ByteSize > 0 ∧ cluster.Spec.TenantID ≠ ctx.tenantID) := by
    rintro ⟨h1, h2⟩
    rcases htenant with h | h
    · exact ((utf8ByteSize_pos_iff _).1 h1) h
    · exact h2 h
  simp only [ClientSet, hname, hget, hunlocked, ht, hwrap, if_false, and_false, ne_eq,
    not_false_eq_true, if_true]

/-- Trace of `kubernetes.NewForConfig`: one more call. -/
theorem NewForConfig_trace {σ : Type} (d : Deps σ) (config : Config) (w : World σ) :
    (kubernetes.NewForConfig d config w).1 = w.log (.NewForConfig config) := by
  unfold kubernetes.NewForConfig
  cases d.NewForConfig config <;> rfl

/-- Result of `kubernetes.NewForConfig`: a client set is one for the given config. -/
theorem NewForConfig_ok {σ : Type} (d : Deps σ) (config : Config) (w : World σ) (cs : Clientset)
    (h : (kubernetes.NewForConfig d config w).2 = .ok cs) : cs.config = config := by
  unfold kubernetes.NewForConfig at h
  cases hn : d.NewForConfig config <;> simp [hn] at h
  rw [← h]

/-- C5: in `ClientSet`, once resolution has succeeded (cluster found, not locked,
tenant check passed, wrapper built).  With a non-empty principal: when
`getOrCreateClientCert` returns a pair, the configuration handed on is the one
`RESTConfigForClientX509` builds from exactly that pair; every client set that
comes back was built that way; an error of `getOrCreateClientCert` is the error of
`ClientSet`; and `RESTConfig` is never called.  With an empty principal: the
configuration is the one `RESTConfig` builds, and the calls are the directory
read, the wrapper, `RESTConfig` and at most `NewForConfig`, so
`getOrCreateClientCert` makes none; store and entropy are unchanged. -/
theorem ClientSet_credential_choice {σ : Type} (d : Deps σ) (ctx : Context) (w : World σ)
    (cluster : Cluster) (clusterWrapper : ClusterWrapper) (hname : ctx.clusterName ≠ "")
    (hget : d.ClustersGet ctx.clusterName = .ok cluster)
    (hunlocked : cluster.Status.Locked ≠ some true)
    (htenant : ctx.tenantID = "" ∨ cluster.Spec.TenantID = ctx.tenantID)
    (hwrap : d.GetCluster cluster = .ok clusterWrapper) :
    (ctx.uin ≠ "" →
      (∀ w1 cw1 cert key config,
        getOrCreateClientCert d ctx clusterWrapper
          ((w.log (.ClustersGet ctx.clusterName)).log (.GetCluster cluster)) =
            (w1, cw1, .ok (cert, key)) →
        d.RESTConfigForClientX509 cw1 {} cert key = .ok config →
        ClientSet d ctx w =
          kubernetes.NewForConfig d config (w1.log (.RESTConfigForClientX509 cert key))) ∧
      (∀ cs, (ClientSet d ctx w).2 = .ok cs →
        ∃ w1 cw1 cert key,
          getOrCreateClientCert d ctx clusterWrapper
            ((w.log (.ClustersGet ctx.clusterName)).log (.GetCluster cluster)) =
              (w1, cw1, .ok (cert, key)) ∧
          d.RESTConfigForClientX509 cw1 {} cert key = .ok cs.config) ∧
      (∀ w1 cw1 err,
        getOrCreateClientCert d ctx clusterWrapper
          ((w.log (.ClustersGet ctx.clusterName)).log (.GetCluster cluster)) =
            (w1, cw1, .error err) →
        ClientSet d ctx w = (w1, .error err)) ∧
      (∃ added, (ClientSet d ctx w).1.trace = w.trace ++ added ∧ Call.RESTConfig ∉ added)) ∧
    (ctx.uin = "" →
      (∀ config, d.RESTConfig clusterWrapper {} = .ok config →
        ClientSet d ctx w = kubernetes.NewForConfig d config
          (((w.log (.ClustersGet ctx.clusterName)).log (.GetCluster cluster)).log .RESTConfig)) ∧
      (∀ cs, (ClientSet d ctx w).2 = .ok cs → d.RESTConfig clusterWrapper {} = .ok cs.config) ∧
      (∃ rest, (ClientSet d ctx w).1.trace =
          w.trace ++ [.ClustersGet ctx.clusterName, .GetCluster cluster, .RESTConfig] ++ rest ∧
        (rest = [] ∨ ∃ config, rest = [.NewForConfig config])) ∧
      (ClientSet d ctx w).1.store = w.store ∧ (ClientSet d ctx w).1.rand = w.rand) := by
  have hunfold := ClientSet_of_resolved d ctx w cluster clusterWrapper hname hget hunlocked
    htenant hwrap
  constructor
  · intro huin
    rw [if_pos huin] at hunfold
    obtain ⟨added, hadded, hno⟩ := getOrCreateClientCert_trace d ctx clusterWrapper
      ((w.log (.ClustersGet ctx.clusterName)).log (.GetCluster cluster))
    rcases hg : getOrCreateClientCert d ctx clusterWrapper
      ((w.log (.ClustersGet ctx.clusterName)).log (.GetCluster cluster)) with ⟨w1, cw1, r⟩
    rw [hg] at hunfold hadded
    simp only [World.log, List.append_assoc] at hadded
    cases r with
    | panic =>
      simp only at hunfold
      rw [hunfold]
      refine ⟨?_, ?_, ?_, ?_⟩
      · intro _ _ _ _ _ h; simp at h
      · intro cs h; simp at h
      · intro _ _ _ h; simp at h
      · exact ⟨_, hadded, by simp [hno]⟩
    | error err =>
      simp only at hunfold
      rw [hunfold]
      refine ⟨?_, ?_, ?_, ?_⟩
      · intro _ _ _ _ _ h; simp at h
      · intro cs h; simp at h
      · intro _ _ _ h
        simp only [Prod.mk.injEq, Result.error.injEq] at h
        rw [h.1, h.2.2]
      · exact ⟨_, hadded, by simp [hno]⟩
    | ok pair =>
      obtain ⟨cert, key⟩ := pair
      simp only at hunfold
      refine ⟨?_, ?_, ?_, ?_⟩
      · intro _ _ _ _ config h hc
        simp only [Prod.mk.injEq, Result.ok.injEq] at h
        obtain ⟨rfl, rfl, rfl, rfl⟩ := h
        rw [hunfold, hc]
      · intro cs h
        refine ⟨w1, cw1, cert, key, rfl, ?_⟩
        rw [hunfold] at h
        cases hc : d.RESTConfigForClientX509 cw1 {} cert key with
        | error e => rw [hc] at h; simp at h
        | ok config =>
          rw [hc] at h
          rw [NewForConfig_ok d config _ cs h]
      · intro _ _ _ h; simp at h
      · rw [hunfold]
        cases hc : d.RESTConfigForClientX509 cw1 {} cert key with
        | error e =>
          refine ⟨[.ClustersGet ctx.clusterName] ++ ([.GetCluster cluster] ++
            (added ++ [.RESTConfigForClientX509 cert key])), ?_, by simp [hno]⟩
          simp only [World.log, hadded, List.append_assoc]
        | ok config =>
          refine ⟨[.ClustersGet ctx.clusterName] ++ ([.GetCluster cluster] ++
            (added ++ [.RESTConfigForClientX509 cert key, .NewForConfig config])), ?_,
            by simp [hno]⟩
          simp only [NewForConfig_trace, World.log, hadded, List.append_assoc]
          simp
  · intro huin
    have hn : ¬ ctx.uin ≠ "" := fun h => h huin
    rw [if_neg hn] at hunfold
    cases hc : d.RESTConfig clusterWrapper {} with
    | error e =>
      rw [hc] at hunfold
      simp only at hunfold
      rw [hunfold]
      refine ⟨?_, ?_, ⟨[], ?_, Or.inl rfl⟩, rfl, rfl⟩
      · intro _ h; simp at h
      · intro _ h; simp at h
      · simp [World.log]
    | ok config =>
      rw [hc] at hunfold
      simp only at hunfold
      rw [hunfold]
      refine ⟨?_, ?_, ⟨[.NewForConfig config], ?_, Or.inr ⟨config, rfl⟩⟩, ?_, ?_⟩
      · intro _ h
        simp only [Except.ok.injEq] at h
        rw [h]
      · intro cs h
        rw [NewForConfig_ok d config _ cs h]
      · simp [NewForConfig_trace, World.log]
      · simp [NewForConfig_trace, World.log]
      · simp [NewForConfig_trace, World.log]

/-- Witness of C5: principal `u1` on the empty store of `cls-1`; the client set is
built from the generated pair `[0]`, `[100]`. -/
theorem ClientSet_credential_choice_witness :
    ClientSet (fakeDeps [cls1]) (requestBy "t1") { store := [] } =
      kubernetes.NewForConfig (fakeDeps [cls1])
        { Host := "cls-1", TLSClientConfig := { CertData := [0], KeyData := [100] } }
        ((getOrCreateClientCert (fakeDeps [cls1]) (requestBy "t1")
          { Cluster := cls1, ClusterCredential := { Token := "admin" } }
          { store := [], trace := [.ClustersGet "cls-1", .GetCluster cls1] }).1.log
            (.RESTConfigForClientX509 [0] [100])) :=
  ((ClientSet_credential_choice (fakeDeps [cls1]) (requestBy "t1") { store := [] } cls1
    { Cluster := cls1, ClusterCredential := { Token := "admin" } }
    (by decide) rfl (by decide) (Or.inr rfl) rfl).1 (by decide)).1 _ _ [0] [100] _ rfl rfl

/-! ## Cache key: `makeClientKey` and the name of the cache record -/

/-- The result of `getOrCreateClientCert` depends on the request only through the
principal and the cluster name. -/
theorem getOrCreateClientCert_congr {σ : Type} (d : Deps σ) (ctx other : Context)
    (clusterWrapper : ClusterWrapper) (w : World σ) (huin : other.uin = ctx.uin)
    (hcluster : other.clusterName = ctx.clusterName) :
    getOrCreateClientCert d other clusterWrapper w = getOrCreateClientCert d ctx clusterWrapper w := by
  unfold getOrCreateClientCert
  rw [huin, hcluster]

/-- C10, counterexample: principal `u1` with no groups and no namespace, on the empty
store of `cls-1`.  The identity key is `u1###[]`, yet the record is read and
created under the name `u1`; and the identity with the same principal, the group
`admins` and the namespace `dev` then reads that same record and is given the
same pair without a generation. -/
theorem cache_record_not_keyed_by_identity_key :
    makeClientKey "u1" [] = "u1###[]" ∧
      (getOrCreateClientCert (fakeDeps [cls1]) (requestBy "t1") { Cluster := cls1 }
        { store := [] }).1.store = [certRecord "u1" "cls-1" [0] [100]] ∧
      (certRecord "u1" "cls-1" [0] [100]).ObjectMeta.Name = "u1" ∧
      (getOrCreateClientCert (fakeDeps [cls1]) (requestBy "t1") { Cluster := cls1 }
        { store := [] }).1.trace =
        [.ConfigMapsGet "kube-system" "u1", .ConfigMapsGet "kube-system" "config",
          .GenerateClientCertAndKey "u1" [] [] [],
          .ConfigMapsCreate "kube-system" (certRecord "u1" "cls-1" [0] [100])] ∧
      makeClientKey "u1" ["admins", "namespace:dev"] ≠ makeClientKey "u1" [] ∧
      (getOrCreateClientCert (fakeDeps [cls1])
        { requestBy "t1" with groups := ["admins"], ns := "dev" } { Cluster := cls1 }
        { store := [certRecord "u1" "cls-1" [0] [100]], rand := 1 }).2.2 = .ok ([0], [100]) ∧
      (getOrCreateClientCert (fakeDeps [cls1])
        { requestBy "t1" with groups := ["admins"], ns := "dev" } { Cluster := cls1 }
        { store := [certRecord "u1" "cls-1" [0] [100]], rand := 1 }).1.trace =
        [.ConfigMapsGet "kube-system" "u1"] := by
  decide

/-- C10, amended: the cache record that `getOrCreateClientCert` reads and writes is the
ConfigMap of namespace `kube-system` named by the principal alone.  On a miss with
generation and create succeeding, the calls are the read of the record named by
the principal, the CA read, the generation and the create of a record of that
name; and a caller with the same principal and cluster name, whatever its groups
and namespace scope, gets the same result from every world, so on the resulting
world it reads that record and is given the same pair. -/
theorem cache_record_keyed_by_principal {σ : Type} (d : Deps σ) (ctx other : Context)
    (clusterWrapper : ClusterWrapper) (w : World σ) (absent : ConfigMap) (err : Error)
    (clientCertData clientKeyData : Bytes) (store : σ)
    (hname : ctx.clusterName ≠ "") (hclient : d.Clientset clusterWrapper = true)
    (hread : d.ConfigMapsGet clusterWrapper w.store "kube-system" ctx.uin = (absent, some err))
    (hnotfound : IsNotFoundError err = true)
    (hgen : d.GenerateClientCertAndKey w.rand ctx.uin []
      (bytesOf (strAt (d.ConfigMapsGet clusterWrapper w.store "kube-system" "config").1.Data "ca.crt"))
      (bytesOf (strAt (d.ConfigMapsGet clusterWrapper w.store "kube-system" "config").1.Data "ca.key"))
        = .ok (clientCertData, clientKeyData))
    (hcreate : d.ConfigMapsCreate clusterWrapper w.store "kube-system"
      (certRecord ctx.uin ctx.clusterName clientCertData clientKeyData) = (store, none))
    (hstore : ∀ s cm s1, d.ConfigMapsCreate clusterWrapper s "kube-system" cm = (s1, none) →
      ∃ r, d.ConfigMapsGet clusterWrapper s1 "kube-system" cm.ObjectMeta.Name = (r, none) ∧
        r.BinaryData = cm.BinaryData)
    (huin : other.uin = ctx.uin) (hcluster : other.clusterName = ctx.clusterName) :
    (getOrCreateClientCert d ctx clusterWrapper w).1.trace =
        w.trace ++
          [.ConfigMapsGet "kube-system" ctx.uin, .ConfigMapsGet "kube-system" "config",
           .GenerateClientCertAndKey ctx.uin []
            (bytesOf (strAt (d.ConfigMapsGet clusterWrapper w.store "kube-system" "config").1.Data "ca.crt"))
            (bytesOf (strAt (d.ConfigMapsGet clusterWrapper w.store "kube-system" "config").1.Data "ca.key")),
           .ConfigMapsCreate "kube-system"
            (certRecord ctx.uin ctx.clusterName clientCertData clientKeyData)] ∧
      (certRecord ctx.uin ctx.clusterName clientCertData clientKeyData).ObjectMeta.Name = ctx.uin ∧
      (∀ w0 : World σ, getOrCreateClientCert d other clusterWrapper w0 =
        getOrCreateClientCert d ctx clusterWrapper w0) ∧
      (getOrCreateClientCert d other clusterWrapper
        (getOrCreateClientCert d ctx clusterWrapper w).1).2.2 = .ok (clientCertData, clientKeyData) ∧
      (getOrCreateClientCert d other clusterWrapper
        (getOrCreateClientCert d ctx clusterWrapper w).1).1.trace =
        (getOrCreateClientCert d ctx clusterWrapper w).1.trace ++
          [.ConfigMapsGet "kube-system" ctx.uin] := by
  obtain ⟨r, hr, hbin⟩ := hstore _ _ _ hcreate
  have hcert : bytesAt r.BinaryData "clientCertData" = clientCertData := by
    rw [hbin]; simp [certRecord, bytesAt, List.lookup]
  have hkey : bytesAt r.BinaryData "clientKeyData" = clientKeyData := by
    rw [hbin]; simp [certRecord, bytesAt, List.lookup]
  have hr2 : d.ConfigMapsGet clusterWrapper store "kube-system" ctx.uin = (r, none) := hr
  refine ⟨?_, rfl, fun w0 => getOrCreateClientCert_congr d ctx other clusterWrapper w0 huin hcluster,
    ?_⟩
  · rw [getOrCreateClientCert_of_miss d ctx clusterWrapper w absent err clientCertData
      clientKeyData store hname hclient hread hnotfound hgen hcreate]
  · rw [getOrCreateClientCert_congr d ctx other clusterWrapper _ huin hcluster,
      getOrCreateClientCert_of_miss d ctx clusterWrapper w absent err clientCertData
        clientKeyData store hname hclient hread hnotfound hgen hcreate,
      getOrCreateClientCert_of_hit d ctx clusterWrapper _ r hname hclient hr2, hcert, hkey]
    exact ⟨rfl, rfl⟩

/-- Witness of C10, amended: principal `u1` alone, then with group `admins`
and namespace `dev`, on the empty in-memory store of `cls-1`. -/
theorem cache_record_keyed_by_principal_witness :
    (getOrCreateClientCert (fakeDeps [cls1]) (requestBy "t1") { Cluster := cls1 }
        { store := [] }).1.trace =
        [] ++ [.ConfigMapsGet "kube-system" "u1", .ConfigMapsGet "kube-system" "config",
          .GenerateClientCertAndKey "u1" [] [] [],
          .ConfigMapsCreate "kube-system" (certRecord "u1" "cls-1" [0] [100])] ∧
      (getOrCreateClientCert (fakeDeps [cls1])
        { requestBy "t1" with groups := ["admins"], ns := "dev" } { Cluster := cls1 }
        (getOrCreateClientCert (fakeDeps [cls1]) (requestBy "t1") { Cluster := cls1 }
          { store := [] }).1).2.2 = .ok ([0], [100]) :=
  have h := cache_record_keyed_by_principal (fakeDeps [cls1]) (requestBy "t1")
    { requestBy "t1" with groups := ["admins"], ns := "dev" }
    { Cluster := cls1 } { store := [] } {}
    (.NotFound ⟨"", "configmaps"⟩ "u1") [0] [100] [certRecord "u1" "cls-1" [0] [100]]
    (by decide) rfl rfl (by decide) rfl rfl
    (fun s cm s1 hc => fakeGet_of_fakeCreate s cm s1 hc) rfl rfl
  ⟨h.1, h.2.2.2.1⟩

/-- Sorting cancels the order of the input. -/
theorem sortedGroups_of_perm (gs1 gs2 : List String) (h : gs1.Perm gs2) :
    sortedGroups gs1 = sortedGroups gs2 := by
  unfold sortedGroups
  apply List.eq_of_perm_of_sorted (r := fun a b : String => a ≤ b)
  · exact ((List.perm_insertionSort _ gs1).trans h).trans (List.perm_insertionSort _ gs2).symm
  · exact List.sorted_insertionSort _ gs1
  · exact List.sorted_insertionSort _ gs2

/-- C9, counterexample: the group lists `[a, b]` and `[b, a]` are permutations of each
other, and `makeClientKey` gives them the keys `u1###[a b]` and `u1###[b a]`. -/
theorem makeClientKey_depends_on_order :
    List.Perm ["a", "b"] ["b", "a"] ∧
      makeClientKey "u1" ["a", "b"] = "u1###[a b]" ∧
      makeClientKey "u1" ["b", "a"] = "u1###[b a]" ∧
      makeClientKey "u1" ["a", "b"] ≠ makeClientKey "u1" ["b", "a"] := by
  refine ⟨List.Perm.swap _ _ _, by decide, by decide, by decide⟩

/-- The two conditions of `plainGroup`. -/
theorem plainGroup_iff (g : String) : plainGroup g = true ↔ g ≠ "" ∧ ' ' ∉ g.data := by
  simp [plainGroup]

/-- The characters of the accumulating loop of `String.intercalate`. -/
theorem intercalate_go_data (acc : String) (groups : List String) :
    (String.intercalate.go acc " " groups).data = acc.data ++ tailChars groups := by
  induction groups generalizing acc with
  | nil => simp [String.intercalate.go, tailChars]
  | cons g gs ih =>
    rw [String.intercalate.go, ih]
    simp [tailChars, List.flatMap_cons]

/-- The characters `%v` prints between the brackets for a non-empty list. -/
theorem intercalate_data_cons (g : String) (groups : List String) :
    (" ".intercalate (g :: groups)).data = g.data ++ tailChars groups := by
  rw [String.intercalate, intercalate_go_data]

/-- Two space-free words, each followed by nothing or by a space, are equal when the
texts are. -/
theorem word_split (x y r1 r2 : List Char) (hx : ' ' ∉ x) (hy : ' ' ∉ y)
    (hr1 : r1 = [] ∨ ∃ t, r1 = ' ' :: t) (hr2 : r2 = [] ∨ ∃ t, r2 = ' ' :: t)
    (h : x ++ r1 = y ++ r2) : x = y ∧ r1 = r2 := by
  induction x generalizing y with
  | nil =>
    cases y with
    | nil => exact ⟨rfl, by simpa using h⟩
    | cons c cs =>
      exfalso
      rcases hr1 with h1 | ⟨t, h1⟩
      · subst h1; simp at h
      · subst h1
        simp only [List.nil_append, List.cons_append, List.cons.injEq] at h
        exact hy (by rw [← h.1]; exact List.mem_cons_self _ _)
  | cons a as ih =>
    cases y with
    | nil =>
      exfalso
      rcases hr2 with h2 | ⟨t, h2⟩
      · subst h2; simp at h
      · subst h2
        simp only [List.nil_append, List.cons_append, List.cons.injEq] at h
        exact hx (by rw [h.1]; exact List.mem_cons_self _ _)
    | cons c cs =>
      simp only [List.cons_append, List.cons.injEq] at h
      have hx2 : ' ' ∉ as := fun hm => hx (List.mem_cons_of_mem _ hm)
      have hy2 : ' ' ∉ cs := fun hm => hy (List.mem_cons_of_mem _ hm)
      obtain ⟨e1, e2⟩ := ih cs hx2 hy2 h.2
      exact ⟨by rw [h.1, e1], e2⟩

/-- The printed tail is empty or starts with a space. -/
theorem tailChars_shape (groups : List String) :
    tailChars groups = [] ∨ ∃ t, tailChars groups = ' ' :: t := by
  cases groups with
  | nil => exact Or.inl rfl
  | cons g gs => exact Or.inr ⟨_, rfl⟩

/-- The printed tail determines the list, for plain group names. -/
theorem tailChars_injective (gs1 gs2 : List String)
    (h1 : ∀ g ∈ gs1, g ≠ "" ∧ ' ' ∉ g.data) (h2 : ∀ g ∈ gs2, g ≠ "" ∧ ' ' ∉ g.data)
    (h : tailChars gs1 = tailChars gs2) : gs1 = gs2 := by
  induction gs1 generalizing gs2 with
  | nil =>
    cases gs2 with
    | nil => rfl
    | cons g gs => simp [tailChars] at h
  | cons a as ih =>
    cases gs2 with
    | nil => simp [tailChars] at h
    | cons g gs =>
      have ha := (h1 a (List.mem_cons_self _ _)).2
      have hg := (h2 g (List.mem_cons_self _ _)).2
      have h' : a.data ++ tailChars as = g.data ++ tailChars gs := by
        simpa [tailChars, List.flatMap_cons] using h
      obtain ⟨e1, e2⟩ := word_split _ _ _ _ ha hg (tailChars_shape as) (tailChars_shape gs) h'
      have e3 := ih gs (fun x hx => h1 x (List.mem_cons_of_mem _ hx))
        (fun x hx => h2 x (List.mem_cons_of_mem _ hx)) e2
      rw [String.ext e1, e3]

/-- The printed list determines the list, for plain group names. -/
theorem intercalate_injective (gs1 gs2 : List String)
    (h1 : ∀ g ∈ gs1, g ≠ "" ∧ ' ' ∉ g.data) (h2 : ∀ g ∈ gs2, g ≠ "" ∧ ' ' ∉ g.data)
    (h : (" ".intercalate gs1).data = (" ".intercalate gs2).data) : gs1 = gs2 := by
  have hne : ∀ (g : String) (gs : List String), (g ≠ "" ∧ ' ' ∉ g.data) →
      (" ".intercalate (g :: gs)).data ≠ [] := by
    intro g gs hg he
    rw [intercalate_data_cons] at he
    have : g.data = [] := (List.append_eq_nil.1 he).1
    exact hg.1 (String.ext this)
  cases gs1 with
  | nil =>
    cases gs2 with
    | nil => rfl
    | cons g gs =>
      exfalso
      exact hne g gs (h2 g (List.mem_cons_self _ _)) h.symm
  | cons a as =>
    cases gs2 with
    | nil =>
      exfalso
      exact hne a as (h1 a (List.mem_cons_self _ _)) h
    | cons g gs =>
      rw [intercalate_data_cons, intercalate_data_cons] at h
      obtain ⟨e1, e2⟩ := word_split _ _ _ _ (h1 a (List.mem_cons_self _ _)).2
        (h2 g (List.mem_cons_self _ _)).2 (tailChars_shape as) (tailChars_shape gs) h
      have e3 := tailChars_injective as gs (fun x hx => h1 x (List.mem_cons_of_mem _ hx))
        (fun x hx => h2 x (List.mem_cons_of_mem _ hx)) e2
      rw [String.ext e1, e3]

/-- The key determines the group list and its order, for plain group names. -/
theorem makeClientKey_injective (principal : String) (gs1 gs2 : List String)
    (h1 : ∀ g ∈ gs1, plainGroup g = true) (h2 : ∀ g ∈ gs2, plainGroup g = true)
    (h : makeClientKey principal gs1 = makeClientKey principal gs2) : gs1 = gs2 := by
  have hd := congrArg String.data h
  simp only [makeClientKey, fmtStrings, String.data_append] at hd
  have hd2 := List.append_cancel_left hd
  have hd3 := List.append_cancel_right hd2
  have hd4 := List.append_cancel_left hd3
  exact intercalate_injective gs1 gs2 (fun g hg => (plainGroup_iff g).1 (h1 g hg))
    (fun g hg => (plainGroup_iff g).1 (h2 g hg)) hd4

/-- C9, amended: `makeClientKey` does not sort.  For every group list its key is the
principal, `###` and the list printed in the order given.  Hence, for two group
lists that are permutations of each other and whose names are plain (not empty,
no space), the keys are equal exactly when the two lists are in the same order;
and the keys are equal, and are the key of the sorted list, once both lists are
passed in sorted order. -/
theorem makeClientKey_keeps_order (principal : String) (gs1 gs2 : List String)
    (h : gs1.Perm gs2) :
    makeClientKey principal gs1 =
        principal ++ "###" ++ ("[" ++ " ".intercalate gs1 ++ "]") ∧
      ((∀ g ∈ gs1, plainGroup g = true) →
        (makeClientKey principal gs1 = makeClientKey principal gs2 ↔ gs1 = gs2)) ∧
      makeClientKey principal (sortedGroups gs1) = makeClientKey principal (sortedGroups gs2) ∧
      makeClientKey principal (sortedGroups gs1) =
        principal ++ "###" ++ ("[" ++ " ".intercalate (sortedGroups gs1) ++ "]") ∧
      (List.Sorted (fun a b => a ≤ b) gs1 → makeClientKey principal gs1 =
        makeClientKey principal (sortedGroups gs2)) := by
  refine ⟨rfl, ?_, by rw [sortedGroups_of_perm gs1 gs2 h], rfl, ?_⟩
  · intro hplain
    constructor
    · intro hkey
      exact makeClientKey_injective principal gs1 gs2 hplain
        (fun g hg => hplain g (h.mem_iff.2 hg)) hkey
    · intro he
      rw [he]
  · intro hs
    rw [← sortedGroups_of_perm gs1 gs2 h]
    unfold sortedGroups
    rw [List.Sorted.insertionSort_eq hs]

/-- Witness of C9, amended: the groups `[b, a]` and `[a, b]` get different keys as
given and the same key once sorted. -/
theorem makeClientKey_keeps_order_witness :
    makeClientKey "u1" ["b", "a"] ≠ makeClientKey "u1" ["a", "b"] ∧
      makeClientKey "u1" (sortedGroups ["b", "a"]) = makeClientKey "u1" (sortedGroups ["a", "b"]) :=
  have h := makeClientKey_keeps_order "u1" ["b", "a"] ["a", "b"] (List.Perm.swap _ _ _)
  ⟨fun hkey => absurd ((h.2.1 (by decide)).1 hkey) (by decide), h.2.2.1⟩

/-- One step of a table lookup with a default. -/
theorem lookup_cons_getD (k a : String) (b dflt : Accessor) (l : List (String × Accessor)) :
    (List.lookup k ((a, b) :: l)).getD dflt = if k = a then b else (List.lookup k l).getD dflt := by
  by_cases h : k = a
  · subst h
    simp [List.lookup]
  · have hb : (k == a) = false := by simpa using h
    simp [List.lookup, hb, h]

/-- The `switch` of `RESTClientFor` is the lookup in `routingTable`, with the
accessor of the client set itself as default. -/
theorem RESTClientFor_eq_lookup (ToLower : String → String) (clientSet : Clientset)
    (apiGroup apiVersion : String) :
    RESTClientFor ToLower clientSet apiGroup apiVersion =
      ⟨clientSet, ((routingTable.lookup (ToLower apiGroup ++ "/" ++ ToLower apiVersion)).getD
        .RESTClient)⟩ := by
  unfold RESTClientFor
  generalize ToLower apiGroup ++ "/" ++ ToLower apiVersion = gv
  simp only [routingTable, lookup_cons_getD, List.lookup_nil, Option.getD_none,
    apply_ite (RESTInterface.mk clientSet)]

/-- Every entry of the table is found under its own key and is a typed accessor. -/
theorem routingTable_entries :
    ∀ p ∈ routingTable, (routingTable.lookup p.1).getD .RESTClient = p.2 ∧ p.2 ≠ .RESTClient := by
  decide

/-- C6: `RESTClientFor` is defined on every group and version string and is the lookup
of the normalized key `lower(group) + "/" + lower(version)` in the static table,
for every behaviour of `strings.ToLower`: a key of the table gets that entry's own
typed accessor, never the generic one; every other key gets the generic
`clientSet.RESTClient()`; the accessor is always one of the client set passed in.
In particular a group lowering to `apps` with a version lowering to `v1` gets
`AppsV1`, and the empty group with such a version gets `CoreV1`. -/
theorem RESTClientFor_routes (ToLower : String → String) (clientSet : Clientset)
    (apiGroup apiVersion : String) :
    RESTClientFor ToLower clientSet apiGroup apiVersion =
        ⟨clientSet, ((routingTable.lookup (ToLower apiGroup ++ "/" ++ ToLower apiVersion)).getD
          .RESTClient)⟩ ∧
      (∀ key acc, (key, acc) ∈ routingTable →
        ToLower apiGroup ++ "/" ++ ToLower apiVersion = key →
        RESTClientFor ToLower clientSet apiGroup apiVersion = ⟨clientSet, acc⟩ ∧
          acc ≠ .RESTClient) ∧
      (ToLower apiGroup ++ "/" ++ ToLower apiVersion ∉ routingTable.map Prod.fst →
        RESTClientFor ToLower clientSet apiGroup apiVersion = ⟨clientSet, .RESTClient⟩) ∧
      (ToLower apiGroup = "apps" → ToLower apiVersion = "v1" →
        RESTClientFor ToLower clientSet apiGroup apiVersion = ⟨clientSet, .AppsV1⟩) ∧
      (ToLower apiGroup = "" → ToLower apiVersion = "v1" →
        RESTClientFor ToLower clientSet apiGroup apiVersion = ⟨clientSet, .CoreV1⟩) := by
  have hlookup := RESTClientFor_eq_lookup ToLower clientSet apiGroup apiVersion
  refine ⟨hlookup, ?_, ?_, ?_, ?_⟩
  · intro key acc hmem hkey
    have h := routingTable_entries (key, acc) hmem
    rw [hlookup, hkey, h.1]
    exact ⟨rfl, h.2⟩
  · intro hnot
    rw [hlookup]
    have hnone : routingTable.lookup (ToLower apiGroup ++ "/" ++ ToLower apiVersion) = none := by
      rw [List.lookup_eq_none_iff]
      intro p hp
      rw [bne_iff_ne]
      intro heq
      apply hnot
      rw [List.mem_map]
      exact ⟨p, hp, heq.symm⟩
    rw [hnone]
    rfl
  · intro hg hv
    rw [hlookup, hg, hv]
    rfl
  · intro hg hv
    rw [hlookup, hg, hv]
    rfl

/-- Witness of C6: with ASCII lowering, `("Apps", "V1")` is routed to `AppsV1`,
`("", "v1")` to `CoreV1`, and the unknown `("example.io", "v9")` to the generic
accessor. -/
theorem RESTClientFor_routes_witness :
    (RESTClientFor asciiToLower ⟨{}⟩ "Apps" "V1" = ⟨⟨{}⟩, .AppsV1⟩ ∧ Accessor.AppsV1 ≠ .RESTClient) ∧
      RESTClientFor asciiToLower ⟨{}⟩ "" "v1" = ⟨⟨{}⟩, .CoreV1⟩ ∧
      RESTClientFor asciiToLower ⟨{}⟩ "example.io" "v9" = ⟨⟨{}⟩, .RESTClient⟩ :=
  ⟨(RESTClientFor_routes asciiToLower ⟨{}⟩ "Apps" "V1").2.1 "apps/v1" .AppsV1 (by decide)
      (by decide),
    (RESTClientFor_routes asciiToLower ⟨{}⟩ "" "v1").2.2.2.2 (by decide) (by decide),
    (RESTClientFor_routes asciiToLower ⟨{}⟩ "example.io" "v9").2.2.1 (by decide)⟩

/-! ## Failures inside `getOrCreateClientCert` -/

/-- A read error that `IsNotFoundError` does not accept is returned at once. -/
theorem getOrCreateClientCert_of_read_error {σ : Type} (d : Deps σ) (ctx : Context)
    (clusterWrapper : ClusterWrapper) (w : World σ) (obj : ConfigMap) (err : Error)
    (hname : ctx.clusterName ≠ "") (hclient : d.Clientset clusterWrapper = true)
    (hread : d.ConfigMapsGet clusterWrapper w.store "kube-system" ctx.uin = (obj, some err))
    (hclass : IsNotFoundError err = false) :
    getOrCreateClientCert d ctx clusterWrapper w =
      (w.log (.ConfigMapsGet "kube-system" ctx.uin), clusterWrapper, .error err) := by
  have hread2 : d.ConfigMapsGet clusterWrapper
      (w.log (.ConfigMapsGet "kube-system" ctx.uin)).store "kube-system" ctx.uin =
        (obj, some err) := hread
  simp only [getOrCreateClientCert, hname, hclient, hread2, hclass]
  simp

/-- Cache miss: whatever the CA read returns, the generation is called next, with
the CA bytes of the object that read handed back, and the entropy advances. -/
theorem getOrCreateClientCert_miss_generates {σ : Type} (d : Deps σ) (ctx : Context)
    (clusterWrapper : ClusterWrapper) (w : World σ) (absent : ConfigMap) (err : Error)
    (hname : ctx.clusterName ≠ "") (hclient : d.Clientset clusterWrapper = true)
    (hread : d.ConfigMapsGet clusterWrapper w.store "kube-system" ctx.uin = (absent, some err))
    (hnotfound : IsNotFoundError err = true) :
    ∃ rest, (getOrCreateClientCert d ctx clusterWrapper w).1.trace =
        w.trace ++
          [.ConfigMapsGet "kube-system" ctx.uin, .ConfigMapsGet "kube-system" "config",
           .GenerateClientCertAndKey ctx.uin []
            (bytesOf (strAt (d.ConfigMapsGet clusterWrapper w.store "kube-system" "config").1.Data "ca.crt"))
            (bytesOf (strAt (d.ConfigMapsGet clusterWrapper w.store "kube-system" "config").1.Data "ca.key"))]
          ++ rest ∧
      (getOrCreateClientCert d ctx clusterWrapper w).1.rand = w.rand + 1 := by
  simp only [getOrCreateClientCert, hname, hclient, World.log, hread, hnotfound]
  simp only [if_false, if_true, Bool.true_eq_false]
  split
  · exact ⟨[], by simp, rfl⟩
  · rename_i clientCertData clientKeyData _
    split
    · exact ⟨[.ConfigMapsCreate "kube-system"
        (certRecord ctx.uin ctx.clusterName clientCertData clientKeyData)],
        by simp [certRecord], rfl⟩
    · exact ⟨[.ConfigMapsCreate "kube-system"
        (certRecord ctx.uin ctx.clusterName clientCertData clientKeyData)],
        by simp [certRecord], rfl⟩

/-- Cache miss with the generation succeeding and the create failing: the write
error is the result, and the store is the one the create left. -/
theorem getOrCreateClientCert_of_create_error {σ : Type} (d : Deps σ) (ctx : Context)
    (clusterWrapper : ClusterWrapper) (w : World σ) (absent : ConfigMap) (err werr : Error)
    (clientCertData clientKeyData : Bytes) (store : σ)
    (hname : ctx.clusterName ≠ "") (hclient : d.Clientset clusterWrapper = true)
    (hread : d.ConfigMapsGet clusterWrapper w.store "kube-system" ctx.uin = (absent, some err))
    (hnotfound : IsNotFoundError err = true)
    (hgen : d.GenerateClientCertAndKey w.rand ctx.uin []
      (bytesOf (strAt (d.ConfigMapsGet clusterWrapper w.store "kube-system" "config").1.Data "ca.crt"))
      (bytesOf (strAt (d.ConfigMapsGet clusterWrapper w.store "kube-system" "config").1.Data "ca.key"))
        = .ok (clientCertData, clientKeyData))
    (hcreate : d.ConfigMapsCreate clusterWrapper w.store "kube-system"
      (certRecord ctx.uin ctx.clusterName clientCertData clientKeyData) = (store, some werr)) :
    (getOrCreateClientCert d ctx clusterWrapper w).2.2 = .error werr ∧
      (getOrCreateClientCert d ctx clusterWrapper w).1.store = store ∧
      (getOrCreateClientCert d ctx clusterWrapper w).1.rand = w.rand + 1 ∧
      (getOrCreateClientCert d ctx clusterWrapper w).1.trace =
        w.trace ++
          [.ConfigMapsGet "kube-system" ctx.uin, .ConfigMapsGet "kube-system" "config",
           .GenerateClientCertAndKey ctx.uin []
            (bytesOf (strAt (d.ConfigMapsGet clusterWrapper w.store "kube-system" "config").1.Data "ca.crt"))
            (bytesOf (strAt (d.ConfigMapsGet clusterWrapper w.store "kube-system" "config").1.Data "ca.key")),
           .ConfigMapsCreate "kube-system"
            (certRecord ctx.uin ctx.clusterName clientCertData clientKeyData)] := by
  simp only [getOrCreateClientCert, hname, hclient, World.log, hread, hnotfound, hgen,
    certRecord] at hcreate ⊢
  simp [hcreate]

/-- C11, the code at the failing input: principal `u1` on the empty in-memory store
of `cls-1`.  The cache read and the read of the CA record `config` both answer
not found; `getOrCreateClientCert` nevertheless calls the generation, with empty
CA certificate and key, returns the pair it is given and creates the cache
record.  The claim asks for an error, no generation and no record. -/
theorem getOrCreateClientCert_issues_after_failed_ca_read :
    (fakeDeps [cls1]).ConfigMapsGet { Cluster := cls1 } [] "kube-system" "config" =
        ({}, some (.NotFound ⟨"", "configmaps"⟩ "config")) ∧
      (getOrCreateClientCert (fakeDeps [cls1]) (requestBy "t1") { Cluster := cls1 }
        { store := [] }).2.2 = .ok ([0], [100]) ∧
      (getOrCreateClientCert (fakeDeps [cls1]) (requestBy "t1") { Cluster := cls1 }
        { store := [] }).1.trace =
        [.ConfigMapsGet "kube-system" "u1", .ConfigMapsGet "kube-system" "config",
          .GenerateClientCertAndKey "u1" [] [] [],
          .ConfigMapsCreate "kube-system" (certRecord "u1" "cls-1" [0] [100])] ∧
      (getOrCreateClientCert (fakeDeps [cls1]) (requestBy "t1") { Cluster := cls1 }
        { store := [] }).1.store = [certRecord "u1" "cls-1" [0] [100]] := by
  decide

/-- C12: when the request names a cluster and the wrapper yields a client, a cache
read error that `IsNotFoundError` rejects is returned as the error of
`getOrCreateClientCert`, with no pair; the read is the only call, so there is no
CA read, no generation and no create, and store, entropy and credential are
unchanged.  A generation appears among the calls only if the cache read
returned an error that `IsNotFoundError` accepts, and `IsNotFoundError` accepts
exactly the errors whose message contains `not found`. -/
theorem getOrCreateClientCert_read_error_is_fatal {σ : Type} (d : Deps σ) (ctx : Context)
    (clusterWrapper : ClusterWrapper) (w : World σ)
    (hname : ctx.clusterName ≠ "") (hclient : d.Clientset clusterWrapper = true) :
    (∀ obj err,
      d.ConfigMapsGet clusterWrapper w.store "kube-system" ctx.uin = (obj, some err) →
      IsNotFoundError err = false →
      (getOrCreateClientCert d ctx clusterWrapper w).2.2 = .error err ∧
        (getOrCreateClientCert d ctx clusterWrapper w).1.trace =
          w.trace ++ [.ConfigMapsGet "kube-system" ctx.uin] ∧
        (getOrCreateClientCert d ctx clusterWrapper w).1.store = w.store ∧
        (getOrCreateClientCert d ctx clusterWrapper w).1.rand = w.rand ∧
        (getOrCreateClientCert d ctx clusterWrapper w).2.1 = clusterWrapper) ∧
      (∀ added cn org caCert caKey,
        (getOrCreateClientCert d ctx clusterWrapper w).1.trace = w.trace ++ added →
        Call.GenerateClientCertAndKey cn org caCert caKey ∈ added →
        ∃ obj err,
          d.ConfigMapsGet clusterWrapper w.store "kube-system" ctx.uin = (obj, some err) ∧
          IsNotFoundError err = true) ∧
      (∀ err, IsNotFoundError err = true ↔ "not found".data <:+: err.text.data) := by
  refine ⟨?_, ?_, ?_⟩
  · intro obj err hread hclass
    rw [getOrCreateClientCert_of_read_error d ctx clusterWrapper w obj err hname hclient hread
      hclass]
    exact ⟨rfl, rfl, rfl, rfl, rfl⟩
  · intro added cn org caCert caKey htrace hmem
    rcases hread : d.ConfigMapsGet clusterWrapper w.store "kube-system" ctx.uin with ⟨obj, oerr⟩
    cases oerr with
    | none =>
      rw [getOrCreateClientCert_of_hit d ctx clusterWrapper w obj hname hclient hread] at htrace
      have hadded := List.append_cancel_left htrace
      rw [← hadded] at hmem
      simp at hmem
    | some err =>
      cases hclass : IsNotFoundError err with
      | true => exact ⟨obj, err, rfl, hclass⟩
      | false =>
        rw [getOrCreateClientCert_of_read_error d ctx clusterWrapper w obj err hname hclient
          hread hclass] at htrace
        have hadded := List.append_cancel_left htrace
        rw [← hadded] at hmem
        simp at hmem
  · intro err
    simp [IsNotFoundError, Contains]

/-- Witness of C12: the store of `cls-1` answers the read with the status of an
unavailable server, and that status is the result. -/
theorem getOrCreateClientCert_read_error_is_fatal_witness :
    (getOrCreateClientCert (unavailableDeps [cls1]) (requestBy "t1") { Cluster := cls1 }
        { store := [] }).2.2 =
        .error (.Status "ServiceUnavailable" 503
          "the server is currently unable to handle the request") ∧
      (getOrCreateClientCert (unavailableDeps [cls1]) (requestBy "t1") { Cluster := cls1 }
        { store := [] }).1.trace = [] ++ [.ConfigMapsGet "kube-system" "u1"] :=
  have h := (getOrCreateClientCert_read_error_is_fatal (unavailableDeps [cls1]) (requestBy "t1")
    { Cluster := cls1 } { store := [] } (by decide) rfl).1 {}
    (.Status "ServiceUnavailable" 503 "the server is currently unable to handle the request")
    rfl (by decide)
  ⟨h.1, h.2.1⟩

/-- C13, counterexample: principal `u1` on the empty store of `cls-1`, where another
caller's record arrives between the read and the create.  The generation
succeeds, the create fails with already-exists and `getOrCreateClientCert`
returns that error; but the store then holds a record for `u1`, and the next
call returns its pair `[42]`, `[43]` after one read, without a generation. -/
theorem getOrCreateClientCert_write_failure_leaves_record :
    (getOrCreateClientCert (racingDeps [cls1]) (requestBy "t1") { Cluster := cls1 }
        { store := [] }).2.2 =
        .error (.Status "AlreadyExists" 409 "configmaps already exists") ∧
      (getOrCreateClientCert (racingDeps [cls1]) (requestBy "t1") { Cluster := cls1 }
        { store := [] }).1.trace =
        [.ConfigMapsGet "kube-system" "u1", .ConfigMapsGet "kube-system" "config",
          .GenerateClientCertAndKey "u1" [] [] [],
          .ConfigMapsCreate "kube-system" (certRecord "u1" "cls-1" [0] [100])] ∧
      (getOrCreateClientCert (racingDeps [cls1]) (requestBy "t1") { Cluster := cls1 }
        { store := [] }).1.store = [certRecord "u1" "cls-1" [42] [43]] ∧
      (getOrCreateClientCert (racingDeps [cls1]) (requestBy "t1") { Cluster := cls1 }
        (getOrCreateClientCert (racingDeps [cls1]) (requestBy "t1") { Cluster := cls1 }
          { store := [] }).1).2.2 = .ok ([42], [43]) ∧
      (getOrCreateClientCert (racingDeps [cls1]) (requestBy "t1") { Cluster := cls1 }
        (getOrCreateClientCert (racingDeps [cls1]) (requestBy "t1") { Cluster := cls1 }
          { store := [] }).1).1.trace =
        (getOrCreateClientCert (racingDeps [cls1]) (requestBy "t1") { Cluster := cls1 }
          { store := [] }).1.trace ++ [.ConfigMapsGet "kube-system" "u1"] ∧
      (getOrCreateClientCert (racingDeps [cls1]) (requestBy "t1") { Cluster := cls1 }
        (getOrCreateClientCert (racingDeps [cls1]) (requestBy "t1") { Cluster := cls1 }
          { store := [] }).1).1.rand = 1 := by
  decide

/-- C13, amended: on a cache miss where the generation succeeds and the create of the
cache record fails, `getOrCreateClientCert` fails with exactly the error of the
create and returns no pair; the failed create is its last call, so the store is
the one that create left.  If the read of the caller's record on that store still
reports not found, the next call for the same caller calls the generation again,
drawing on the entropy a second time; if the read finds a record there, the next
call returns that record's pair after this one read, without a generation. -/
theorem getOrCreateClientCert_write_failure {σ : Type} (d : Deps σ) (ctx : Context)
    (clusterWrapper : ClusterWrapper) (w : World σ) (absent : ConfigMap) (err werr : Error)
    (clientCertData clientKeyData : Bytes) (store : σ)
    (hname : ctx.clusterName ≠ "") (hclient : d.Clientset clusterWrapper = true)
    (hread : d.ConfigMapsGet clusterWrapper w.store "kube-system" ctx.uin = (absent, some err))
    (hnotfound : IsNotFoundError err = true)
    (hgen : d.GenerateClientCertAndKey w.rand ctx.uin []
      (bytesOf (strAt (d.ConfigMapsGet clusterWrapper w.store "kube-system" "config").1.Data "ca.crt"))
      (bytesOf (strAt (d.ConfigMapsGet clusterWrapper w.store "kube-system" "config").1.Data "ca.key"))
        = .ok (clientCertData, clientKeyData))
    (hcreate : d.ConfigMapsCreate clusterWrapper w.store "kube-system"
      (certRecord ctx.uin ctx.clusterName clientCertData clientKeyData) = (store, some werr)) :
    (getOrCreateClientCert d ctx clusterWrapper w).2.2 = .error werr ∧
      (getOrCreateClientCert d ctx clusterWrapper w).1.trace =
        w.trace ++
          [.ConfigMapsGet "kube-system" ctx.uin, .ConfigMapsGet "kube-system" "config",
           .GenerateClientCertAndKey ctx.uin []
            (bytesOf (strAt (d.ConfigMapsGet clusterWrapper w.store "kube-system" "config").1.Data "ca.crt"))
            (bytesOf (strAt (d.ConfigMapsGet clusterWrapper w.store "kube-system" "config").1.Data "ca.key")),
           .ConfigMapsCreate "kube-system"
            (certRecord ctx.uin ctx.clusterName clientCertData clientKeyData)] ∧
      (getOrCreateClientCert d ctx clusterWrapper w).1.store = store ∧
      (∀ absent2 err2,
        d.ConfigMapsGet clusterWrapper store "kube-system" ctx.uin = (absent2, some err2) →
        IsNotFoundError err2 = true →
        (∃ rest,
          (getOrCreateClientCert d ctx clusterWrapper
            (getOrCreateClientCert d ctx clusterWrapper w).1).1.trace =
            (getOrCreateClientCert d ctx clusterWrapper w).1.trace ++
              [.ConfigMapsGet "kube-system" ctx.uin, .ConfigMapsGet "kube-system" "config",
               .GenerateClientCertAndKey ctx.uin []
                (bytesOf (strAt (d.ConfigMapsGet clusterWrapper store "kube-system" "config").1.Data "ca.crt"))
                (bytesOf (strAt (d.ConfigMapsGet clusterWrapper store "kube-system" "config").1.Data "ca.key"))]
              ++ rest) ∧
        (getOrCreateClientCert d ctx clusterWrapper
          (getOrCreateClientCert d ctx clusterWrapper w).1).1.rand = w.rand + 2) ∧
      (∀ found,
        d.ConfigMapsGet clusterWrapper store "kube-system" ctx.uin = (found, none) →
        (getOrCreateClientCert d ctx clusterWrapper
          (getOrCreateClientCert d ctx clusterWrapper w).1).2.2 =
          .ok (bytesAt found.BinaryData "clientCertData", bytesAt found.BinaryData "clientKeyData") ∧
        (getOrCreateClientCert d ctx clusterWrapper
          (getOrCreateClientCert d ctx clusterWrapper w).1).1.trace =
          (getOrCreateClientCert d ctx clusterWrapper w).1.trace ++
            [.ConfigMapsGet "kube-system" ctx.uin] ∧
        (getOrCreateClientCert d ctx clusterWrapper
          (getOrCreateClientCert d ctx clusterWrapper w).1).1.rand = w.rand + 1) := by
  obtain ⟨hres, hstore, hrand, htrace⟩ := getOrCreateClientCert_of_create_error d ctx
    clusterWrapper w absent err werr clientCertData clientKeyData store hname hclient hread
    hnotfound hgen hcreate
  refine ⟨hres, htrace, hstore, ?_, ?_⟩
  · intro absent2 err2 hread2 hnotfound2
    have hread3 : d.ConfigMapsGet clusterWrapper
        (getOrCreateClientCert d ctx clusterWrapper w).1.store "kube-system" ctx.uin =
          (absent2, some err2) := by
      rw [hstore]
      exact hread2
    obtain ⟨rest, htrace2, hrand2⟩ := getOrCreateClientCert_miss_generates d ctx clusterWrapper
      (getOrCreateClientCert d ctx clusterWrapper w).1 absent2 err2 hname hclient hread3
      hnotfound2
    rw [hstore] at htrace2
    exact ⟨⟨rest, htrace2⟩, by rw [hrand2, hrand]⟩
  · intro found hfound
    have hfound2 : d.ConfigMapsGet clusterWrapper
        (getOrCreateClientCert d ctx clusterWrapper w).1.store "kube-system" ctx.uin =
          (found, none) := by
      rw [hstore]
      exact hfound
    rw [getOrCreateClientCert_of_hit d ctx clusterWrapper _ found hname hclient hfound2]
    exact ⟨rfl, rfl, hrand⟩

/-- Witness of C13, amended: principal `u1` on the empty store of `cls-1` that refuses
every create and keeps what it held; the next call draws on the entropy again. -/
theorem getOrCreateClientCert_write_failure_witness :
    (getOrCreateClientCert (readOnlyDeps [cls1]) (requestBy "t1") { Cluster := cls1 }
        { store := [] }).2.2 = .error (.Status "Forbidden" 403 "configmaps is forbidden") ∧
      (getOrCreateClientCert (readOnlyDeps [cls1]) (requestBy "t1") { Cluster := cls1 }
        { store := [] }).1.store = [] ∧
      (getOrCreateClientCert (readOnlyDeps [cls1]) (requestBy "t1") { Cluster := cls1 }
        (getOrCreateClientCert (readOnlyDeps [cls1]) (requestBy "t1") { Cluster := cls1 }
          { store := [] }).1).1.rand = 0 + 2 :=
  have h := getOrCreateClientCert_write_failure (readOnlyDeps [cls1]) (requestBy "t1")
    { Cluster := cls1 } { store := [] } {} (.NotFound ⟨"", "configmaps"⟩ "u1")
    (.Status "Forbidden" 403 "configmaps is forbidden") [0] [100] []
    (by decide) rfl rfl (by decide) rfl rfl
  ⟨h.1, h.2.2.1, (h.2.2.2.1 {} (.NotFound ⟨"", "configmaps"⟩ "u1") rfl (by decide)).2⟩

end proxy

namespace storage

/-! ## Facts about the header and heap primitives -/

theorem CloneHeader_eq (h : Header) : CloneHeader h = h := by
  unfold CloneHeader
  induction h with
  | nil => rfl
  | cons p t ih =>
    obtain ⟨k, vs⟩ := p
    simp only [List.map_cons, List.map_id_fun, id_eq, List.cons.injEq, true_and]
    simp

theorem Header.values_Set_self (h : Header) (key value : String) :
    (Header.Set h key value).values key = some [value] := by
  induction h with
  | nil => simp [Header.Set, Header.values, List.lookup]
  | cons p t ih =>
    obtain ⟨k, vs⟩ := p
    unfold Header.Set
    by_cases hk : k = key
    · simp [hk, Header.values, List.lookup]
    · have hb : (key == k) = false := by simpa using fun e => hk e.symm
      simp only [hk, if_false, Header.values, List.lookup, hb]
      exact ih

theorem Header.values_Set_other (h : Header) (key value other : String) (hne : other ≠ key) :
    (Header.Set h key value).values other = h.values other := by
  induction h with
  | nil =>
    have hb : (other == key) = false := by simpa using hne
    simp [Header.Set, Header.values, List.lookup, hb]
  | cons p t ih =>
    obtain ⟨k, vs⟩ := p
    unfold Header.Set
    by_cases hk : k = key
    · subst hk
      have hb : (other == k) = false := by simpa using hne
      simp [Header.values, List.lookup, hb]
    · simp only [hk, if_false, Header.values, List.lookup]
      cases hb : (other == k)
      · exact ih
      · rfl

/-- Explicit form of the hand-over of `ServeHTTP` when the handler's location and
the request's URL are non-nil. -/
theorem ServeHTTP_eq (h : clsLogConfigProxyHandler) (req : Request) (heap : Heap)
    (location reqURL : URL) (reqHeader : Header)
    (hloc : heap.url h.location = some location) (hurl : heap.url req.URL = some reqURL)
    (hhdr : heap.header req.Header = some reqHeader) :
    ServeHTTP h req heap =
      some
        ({ urls := heap.urls ++
              [{ location with
                  RawQuery := reqURL.RawQuery,
                  Path := if h.name = "" then "/apis/cls.cloud.tencent.com/v1/logconfigs"
                    else "/apis/cls.cloud.tencent.com/v1/logconfigs" ++ "/" ++ h.name }],
           headers := heap.headers ++
              [if h.token = "" then reqHeader
                else Header.Set reqHeader "Authorization" ("Bearer " ++ TrimSpace h.token)] },
         { reserveProxy :=
             { target := { Scheme := location.Scheme, Host := location.Host },
               Transport := h.transport, FlushInterval := 100000000 },
           newReq :=
             { Method := req.Method, URL := heap.urls.length,
               Header := some heap.headers.length, Host := req.Host, ctx := .Background } }) := by
  unfold ServeHTTP
  rw [hloc, hurl, hhdr]
  simp only [CloneHeader_eq, Request.WithContext]
  have hsize : (h.name.utf8ByteSize = 0) = (h.name = "") := by
    have := proxy.utf8ByteSize_pos_iff h.name
    apply propext
    constructor
    · intro h0
      by_contra hne
      have := this.2 hne
      omega
    · intro he
      by_contra hne
      have hpos : h.name.utf8ByteSize > 0 := by omega
      exact (this.1 hpos) he
  simp only [hsize]
  by_cases htok : h.token = ""
  · by_cases hname : h.name = "" <;> simp [htok, hname, Millisecond]
  · by_cases hname : h.name = "" <;>
      simp [htok, hname, Millisecond, Heap.setHeader]

theorem getElem?_append_of_some {α : Type} (l m : List α) (i : Nat) (a : α)
    (h : l[i]? = some a) : (l ++ m)[i]? = some a := by
  have hlt : i < l.length := by
    by_contra hge
    rw [List.getElem?_eq_none (by omega)] at h
    exact Option.noConfusion h
  rw [List.getElem?_append_left hlt, h]

theorem getElem?_lt_of_some {α : Type} (l : List α) (i : Nat) (a : α)
    (h : l[i]? = some a) : i < l.length := by
  by_contra hge
  rw [List.getElem?_eq_none (by omega)] at h
  exact Option.noConfusion h

/-- What `TrimSpace` removes and what it leaves: the string is white space, then the
result, then white space, and the result neither starts nor ends with white space. -/
theorem TrimSpace_spec (s : String) :
    (∃ l r : List Char, s.data = l ++ (TrimSpace s).data ++ r ∧
      (∀ c ∈ l, IsSpace c = true) ∧ (∀ c ∈ r, IsSpace c = true)) ∧
      (∀ c, (TrimSpace s).data.head? = some c → IsSpace c = false) ∧
      (∀ c, (TrimSpace s).data.getLast? = some c → IsSpace c = false) := by
  have hsplit := List.takeWhile_append_dropWhile IsSpace s.data
  have hrev := List.takeWhile_append_dropWhile IsSpace (s.data.dropWhile IsSpace).reverse
  have hmid : s.data.dropWhile IsSpace =
      ((s.data.dropWhile IsSpace).reverse.dropWhile IsSpace).reverse ++
        ((s.data.dropWhile IsSpace).reverse.takeWhile IsSpace).reverse := by
    have := congrArg List.reverse hrev
    rw [List.reverse_append, List.reverse_reverse] at this
    exact this.symm
  refine ⟨⟨s.data.takeWhile IsSpace,
    ((s.data.dropWhile IsSpace).reverse.takeWhile IsSpace).reverse, ?_, ?_, ?_⟩, ?_, ?_⟩
  · show s.data = _ ++ ((s.data.dropWhile IsSpace).reverse.dropWhile IsSpace).reverse ++ _
    rw [List.append_assoc, ← hmid, hsplit]
  · intro c hc
    exact List.mem_takeWhile_imp hc
  · intro c hc
    exact List.mem_takeWhile_imp (List.mem_reverse.1 hc)
  · intro c hc
    have hc1 : ((s.data.dropWhile IsSpace).reverse.dropWhile IsSpace).reverse.head? = some c := hc
    have hhead : (s.data.dropWhile IsSpace).head? = some c := by
      rw [hmid, List.head?_append, hc1]
      rfl
    have := List.head?_dropWhile_not IsSpace s.data
    rw [hhead] at this
    simpa using this
  · intro c hc
    have hc1 : ((s.data.dropWhile IsSpace).reverse.dropWhile IsSpace).reverse.getLast? = some c := hc
    rw [List.getLast?_reverse] at hc1
    have := List.head?_dropWhile_not IsSpace (s.data.dropWhile IsSpace).reverse
    rw [hc1] at this
    simpa using this

/-- C7: for every handler whose location is non-nil and every inbound request whose
URL is non-nil, `ServeHTTP` hands over a request whose URL is the handler's
location with the raw query replaced by the inbound raw query and the path
replaced by `/apis/cls.cloud.tencent.com/v1/logconfigs` (empty name) or by that
string, `/` and the name (non-empty name).  Scheme, host and every other field
are the location's, so is the target of the reverse proxy; any other inbound
request with the same raw query gets the same URL, whatever its path; and the
cells of the handler's location and of the inbound URL are unchanged. -/
theorem ServeHTTP_target_url (h : clsLogConfigProxyHandler) (req : Request) (heap : Heap)
    (location reqURL : URL) (reqHeader : Header)
    (hloc : heap.url h.location = some location) (hurl : heap.url req.URL = some reqURL)
    (hhdr : heap.header req.Header = some reqHeader) :
    ∃ heap1 fwd target, ServeHTTP h req heap = some (heap1, fwd) ∧
      heap1.url fwd.newReq.URL = some target ∧
      target.RawQuery = reqURL.RawQuery ∧
      (h.name = "" → target.Path = "/apis/cls.cloud.tencent.com/v1/logconfigs") ∧
      (h.name ≠ "" → target.Path = "/apis/cls.cloud.tencent.com/v1/logconfigs" ++ "/" ++ h.name) ∧
      target = { location with RawQuery := reqURL.RawQuery, Path := target.Path } ∧
      fwd.reserveProxy.target = { Scheme := location.Scheme, Host := location.Host } ∧
      (∀ (req2 : Request) (heap2 : Heap) (reqURL2 : URL) (reqHeader2 : Header),
        heap2.url h.location = some location → heap2.url req2.URL = some reqURL2 →
        heap2.header req2.Header = some reqHeader2 → reqURL2.RawQuery = reqURL.RawQuery →
        ∃ heap3 fwd2, ServeHTTP h req2 heap2 = some (heap3, fwd2) ∧
          heap3.url fwd2.newReq.URL = some target) ∧
      heap1.url h.location = some location ∧
      heap1.url req.URL = some reqURL ∧
      fwd.newReq.URL ≠ h.location := by
  refine ⟨_, _,
    { location with
      RawQuery := reqURL.RawQuery,
      Path := if h.name = "" then "/apis/cls.cloud.tencent.com/v1/logconfigs"
        else "/apis/cls.cloud.tencent.com/v1/logconfigs" ++ "/" ++ h.name },
    ServeHTTP_eq h req heap location reqURL reqHeader hloc hurl hhdr, ?_, rfl,
    ?_, ?_, rfl, rfl, ?_, ?_, ?_, ?_⟩
  · simp [Heap.url]
  · intro hn
    simp only [hn, if_true]
  · intro hn
    simp only [hn, if_false]
  · intro req2 heap2 reqURL2 reqHeader2 hloc2 hurl2 hhdr2 hq
    refine ⟨_, _, ServeHTTP_eq h req2 heap2 location reqURL2 reqHeader2 hloc2 hurl2 hhdr2, ?_⟩
    simp [Heap.url, hq]
  · exact getElem?_append_of_some _ _ _ _ hloc
  · exact getElem?_append_of_some _ _ _ _ hurl
  · have := getElem?_lt_of_some _ _ _ hloc
    show heap.urls.length ≠ h.location
    omega

/-- Witness of C7: the handler for the resource `foo` on the fixture heap. -/
theorem ServeHTTP_target_url_witness :
    ∃ heap1 fwd target,
      ServeHTTP { location := 0, token := " tok ", name := "foo" } reqEx heapEx = some (heap1, fwd) ∧
      heap1.url fwd.newReq.URL = some target ∧
      target.RawQuery = "watch=true&x=%20y" ∧
      target.Path = "/apis/cls.cloud.tencent.com/v1/logconfigs" ++ "/" ++ "foo" :=
  have ⟨heap1, fwd, target, h1, h2, h3, _, h5, _⟩ :=
    ServeHTTP_target_url { location := 0, token := " tok ", name := "foo" } reqEx heapEx
      { Scheme := "https", Host := "10.0.0.1:6443", Path := "/base" }
      { Path := "/apis/platform/clusters/cls-1/logconfigs", RawQuery := "watch=true&x=%20y" }
      [("Accept", ["application/json"]), ("Authorization", ["Bearer inbound", "Basic zzz"])]
      rfl rfl rfl
  ⟨heap1, fwd, target, h1, h2, h3, h5 (by decide)⟩

/-- C8: for every inbound header map, the request handed over carries a header map
of its own.  With a non-empty token its `Authorization` entry is the single value
`Bearer ` followed by the token without its leading and trailing white space,
whatever the inbound values were, and every other key has the inbound values;
with an empty token the map equals the inbound one.  The inbound map is
unchanged. -/
theorem ServeHTTP_authorization (h : clsLogConfigProxyHandler) (req : Request) (heap : Heap)
    (location reqURL : URL) (reqHeader : Header)
    (hloc : heap.url h.location = some location) (hurl : heap.url req.URL = some reqURL)
    (hhdr : heap.header req.Header = some reqHeader) :
    ∃ heap1 fwd out, ServeHTTP h req heap = some (heap1, fwd) ∧
      heap1.header fwd.newReq.Header = some out ∧
      (h.token ≠ "" →
        out.values "Authorization" = some ["Bearer " ++ TrimSpace h.token] ∧
        ∀ key, key ≠ "Authorization" → out.values key = reqHeader.values key) ∧
      (h.token = "" → out = reqHeader) ∧
      ((∃ l r : List Char, h.token.data = l ++ (TrimSpace h.token).data ++ r ∧
          (∀ c ∈ l, IsSpace c = true) ∧ (∀ c ∈ r, IsSpace c = true)) ∧
        (∀ c, (TrimSpace h.token).data.head? = some c → IsSpace c = false) ∧
        (∀ c, (TrimSpace h.token).data.getLast? = some c → IsSpace c = false)) ∧
      heap1.header req.Header = some reqHeader ∧
      fwd.newReq.Header ≠ req.Header := by
  refine ⟨_, _,
    (if h.token = "" then reqHeader
      else Header.Set reqHeader "Authorization" ("Bearer " ++ TrimSpace h.token)),
    ServeHTTP_eq h req heap location reqURL reqHeader hloc hurl hhdr, ?_, ?_, ?_,
    TrimSpace_spec h.token, ?_, ?_⟩
  · simp [Heap.header]
  · intro htok
    simp only [htok, if_false]
    exact ⟨Header.values_Set_self _ _ _, fun key hkey => Header.values_Set_other _ _ _ key hkey⟩
  · intro htok
    simp only [htok, if_true]
  · cases hr : req.Header with
    | none =>
      rw [hr] at hhdr
      exact hhdr
    | some r =>
      rw [hr] at hhdr
      exact getElem?_append_of_some _ _ _ _ hhdr
  · cases hr : req.Header with
    | none => simp
    | some r =>
      rw [hr] at hhdr
      have := getElem?_lt_of_some _ _ _ hhdr
      simp only [ne_eq, Option.some.injEq]
      omega

/-- Witness of C8: the token ` tok ` against the inbound values `Bearer inbound` and
`Basic zzz`. -/
theorem ServeHTTP_authorization_witness :
    ∃ heap1 fwd out,
      ServeHTTP { location := 0, token := " tok ", name := "foo" } reqEx heapEx = some (heap1, fwd) ∧
      heap1.header fwd.newReq.Header = some out ∧
      out.values "Authorization" = some ["Bearer " ++ TrimSpace " tok "] ∧
      TrimSpace " tok " = "tok" ∧
      heap1.header reqEx.Header =
        some [("Accept", ["application/json"]), ("Authorization", ["Bearer inbound", "Basic zzz"])] :=
  have ⟨heap1, fwd, out, h1, h2, h3, _, _, h6, _⟩ :=
    ServeHTTP_authorization { location := 0, token := " tok ", name := "foo" } reqEx heapEx
      { Scheme := "https", Host := "10.0.0.1:6443", Path := "/base" }
      { Path := "/apis/platform/clusters/cls-1/logconfigs", RawQuery := "watch=true&x=%20y" }
      [("Accept", ["application/json"]), ("Authorization", ["Bearer inbound", "Basic zzz"])]
      rfl rfl rfl
  ⟨heap1, fwd, out, h1, h2, (h3 (by decide)).1, by decide, h6⟩

end storage
